import Mathlib

/-!
Verification of the view-management core (rust/src of labwc) against its
specification. The Rust sources are shallowly embedded: machine integers
`i32` become `Int` (no arithmetic in the embedded code paths can overflow
32 bits for the inputs considered, and the source relies on that too),
`u64` view ids become `Nat`, Rust's truncating integer division `/` becomes
`Int.tdiv`, and the `BTreeMap<ViewId, View>` becomes an association list
with strictly ascending (hence nodup) keys. External host collaborators
(output layout queries, SSD margins) are an explicit `Env` of pure
functions; per-view external protocol data (root id, modal-dialog flag,
strut flag, focus grant) are fields of the embedded `View`.
-/

namespace Labwc

/-- Integer rectangle (x, y, width, height), `Rect` from the C bindings
used throughout src/rect.rs. -/
structure Rect where
  x : Int
  y : Int
  width : Int
  height : Int
deriving DecidableEq, Repr

/-- The all-zero rectangle, `Rect::default()`. -/
def Rect.default0 : Rect := ⟨0, 0, 0, 0⟩

/-- Decoration border thickness (left, top, right, bottom). -/
structure Border where
  left : Int
  top : Int
  right : Int
  bottom : Int
deriving DecidableEq, Repr

/-- src/rect.rs `rect_empty`. -/
def rect_empty (r : Rect) : Bool := r.width ≤ 0 || r.height ≤ 0

/-- src/rect.rs `rect_equals`. -/
def rect_equals (a b : Rect) : Bool :=
  a.x = b.x && a.y = b.y && a.width = b.width && a.height = b.height

/-- src/rect.rs `rect_intersects` (half-open overlap, both non-empty). -/
def rect_intersects (a b : Rect) : Bool :=
  !rect_empty a && !rect_empty b
    && a.x < b.x + b.width && b.x < a.x + a.width
    && a.y < b.y + b.height && b.y < a.y + a.height

/-- src/rect.rs `rect_center`: a w×h rect centered in `rel_to`
(Rust `/` on i32 truncates toward zero, hence `Int.tdiv`). -/
def rect_center (width height : Int) (rel_to : Rect) : Rect :=
  { x := rel_to.x + Int.tdiv (rel_to.width - width) 2
    y := rel_to.y + Int.tdiv (rel_to.height - height) 2
    width := width
    height := height }

/-- src/rect.rs `rect_minus_margin`. -/
def rect_minus_margin (rect : Rect) (margin : Border) : Rect :=
  { x := rect.x + margin.left
    y := rect.y + margin.top
    width := rect.width - margin.left - margin.right
    height := rect.height - margin.top - margin.bottom }

/-- src/rect.rs `rect_move_within` (the Rust takes `&mut Rect`; here the
updated rectangle is returned). -/
def rect_move_within (rect : Rect) (bound : Rect) : Rect :=
  let x :=
    if rect.x < bound.x then bound.x
    else if rect.x + rect.width > bound.x + bound.width then
      bound.x + bound.width - rect.width
    else rect.x
  let y :=
    if rect.y < bound.y then bound.y
    else if rect.y + rect.height > bound.y + bound.height then
      bound.y + bound.height - rect.height
    else rect.y
  { rect with x := x, y := y }

/-- `ViewAxis` is a two-bit mask: none = 0, horizontal = 1, vertical = 2,
both = 3 (supports bitwise toggles, per the bindings). -/
abbrev ViewAxis := Nat

def VIEW_AXIS_NONE : ViewAxis := 0
def VIEW_AXIS_HORIZONTAL : ViewAxis := 1
def VIEW_AXIS_VERTICAL : ViewAxis := 2
def VIEW_AXIS_BOTH : ViewAxis := 3

/-- `LabEdge` is a bit set over top/bottom/left/right; the particular bit
assignment is irrelevant to the core, only that the four bits are
distinct and none = 0. -/
abbrev LabEdge := Nat

def LAB_EDGE_NONE : LabEdge := 0
def LAB_EDGE_TOP : LabEdge := 1
def LAB_EDGE_BOTTOM : LabEdge := 2
def LAB_EDGE_LEFT : LabEdge := 4
def LAB_EDGE_RIGHT : LabEdge := 8
def LAB_EDGES_LEFT_RIGHT : LabEdge := LAB_EDGE_LEFT ||| LAB_EDGE_RIGHT
def LAB_EDGES_TOP_BOTTOM : LabEdge := LAB_EDGE_TOP ||| LAB_EDGE_BOTTOM

inductive ViewFocusMode where
  | never
  | unlikely
  | likely
  | always
deriving DecidableEq, Repr

/-- Stable 64-bit view id; 0 is reserved as "none". -/
abbrev ViewId := Nat

/-- `ViewState` from the bindings: the per-view logical state shared with
the C side. `output` is the opaque output handle, embedded as a `Nat`
(0 meaning the null output). -/
structure ViewState where
  mapped : Bool
  ever_mapped : Bool
  minimized : Bool
  active : Bool
  fullscreen : Bool
  focus_mode : ViewFocusMode
  maximized : ViewAxis
  tiled : LabEdge
  pending : Rect
  current : Rect
  natural_geom : Rect
  output : Nat
deriving DecidableEq, Repr

/-- A freshly constructed `ViewState` (all fields zero/default, as in
`View::default()`). -/
def ViewState.init : ViewState :=
  { mapped := false, ever_mapped := false, minimized := false
    active := false, fullscreen := false, focus_mode := .never
    maximized := VIEW_AXIS_NONE, tiled := LAB_EDGE_NONE
    pending := Rect.default0, current := Rect.default0
    natural_geom := Rect.default0, output := 0 }

/-- src/view.rs `ViewState::visible`. -/
def ViewState.visible (s : ViewState) : Bool := s.mapped && !s.minimized

/-- src/view.rs `ViewState::focusable`. -/
def ViewState.focusable (s : ViewState) : Bool :=
  s.mapped && (s.focus_mode = ViewFocusMode.always
    || s.focus_mode = ViewFocusMode.likely)

/-- src/view.rs `ViewState::floating`. -/
def ViewState.floating (s : ViewState) : Bool :=
  !s.fullscreen && s.maximized = VIEW_AXIS_NONE && s.tiled = LAB_EDGE_NONE

/-- The external host collaborators consulted by the core, as pure
functions: output layout queries keyed by the opaque output handle,
and whether `view_focus_impl(null)` reports a focus change
(consulted by `focus_topmost`). -/
structure Env where
  usableArea : Nat → Rect
  layoutCoords : Nat → Rect
  outputIsUsable : Nat → Bool
  nearestTo : Int → Int → Nat
  focusNullGrants : Bool

/-- src/view.rs `nearest_output_to_geom`. -/
def nearest_output_to_geom (env : Env) (geom : Rect) : Nat :=
  env.nearestTo (geom.x + Int.tdiv geom.width 2) (geom.y + Int.tdiv geom.height 2)

/-- The embedded `View` (src/view.rs). `rootId`, `modalDialog`,
`hasStrut` and `focusGrants` stand for the per-view answers of the
external protocol calls `get_root_id`, `is_modal_dialog`,
`has_strut_partial` and `view_focus_impl`; `margin` stands for
`ssd_get_margin(view)`. Observer lists, icon buffers and strings are
omitted: no claim concerns them. -/
structure View where
  state : ViewState
  isXwayland : Bool
  rootId : ViewId
  modalDialog : Bool
  hasStrut : Bool
  focusGrants : Bool
  margin : Border
  saved_geom : Rect
  in_layout_change : Bool
  lost_output : Bool
deriving DecidableEq, Repr

namespace View

/-- src/view.rs `View::set_active` (protocol notification elided). -/
def set_active (v : View) (active : Bool) : View :=
  if v.state.active = active then v
  else { v with state := { v.state with active := active } }

/-- src/view.rs `View::set_fullscreen` (private flag setter). -/
def set_fullscreen (v : View) (fullscreen : Bool) : View :=
  if v.state.fullscreen = fullscreen then v
  else { v with state := { v.state with fullscreen := fullscreen } }

/-- src/view.rs `View::set_maximized`. -/
def set_maximized (v : View) (maximized : ViewAxis) : View :=
  if v.state.maximized = maximized then v
  else { v with state := { v.state with maximized := maximized } }

/-- src/view.rs `View::set_tiled`. -/
def set_tiled (v : View) (tiled : LabEdge) : View :=
  if v.state.tiled = tiled then v
  else { v with state := { v.state with tiled := tiled } }

/-- src/view.rs `View::set_minimized`; the returned Bool is whether the
call set the caller's `visibility_changed` out-flag. -/
def set_minimized (v : View) (minimized : Bool) : View × Bool :=
  if v.state.minimized = minimized then (v, false)
  else
    let v := { v with state := { v.state with minimized := minimized } }
    if v.state.mapped then (v, true) else (v, false)

/-- src/view.rs `View::set_output`. -/
def set_output (v : View) (output : Nat) : View :=
  { v with state := { v.state with output := output } }

/-- src/view.rs `View::set_pending_geom`. -/
def set_pending_geom (v : View) (geom : Rect) : View :=
  { v with state := { v.state with pending := geom } }

/-- src/view.rs `View::ensure_geom_onscreen` (the `&mut Rect` argument is
returned). -/
def ensure_geom_onscreen (env : Env) (v : View) (geom : Rect) : Rect :=
  if rect_empty geom then geom
  else
    let usable := env.usableArea v.state.output
    let margin := v.margin
    let usable_minus_margin := rect_minus_margin usable margin
    if rect_empty usable_minus_margin then geom
    else
      let hmargin := min 16 (Int.tdiv (geom.width - 1) 2)
      let vmargin := min 16 (Int.tdiv (geom.height - 1) 2)
      let reduced : Rect :=
        { x := geom.x + hmargin, y := geom.y + vmargin
          width := geom.width - 2 * hmargin, height := geom.height - 2 * vmargin }
      if !rect_intersects reduced usable then
        rect_move_within (rect_center geom.width geom.height usable_minus_margin)
          usable_minus_margin
      else geom

/-- src/view.rs `View::compute_default_geom` (rel_to and keep_position are
mutually exclusive). -/
def compute_default_geom (env : Env) (v : View) (geom : Rect)
    (rel_to : Option Rect) (keep_position : Bool) : Rect :=
  let margin := v.margin
  if rect_empty geom then
    { geom with x := max geom.x margin.left, y := max geom.y margin.top }
  else
    let output := match rel_to with
      | some r => nearest_output_to_geom env r
      | none => v.state.output
    let usable := env.usableArea output
    let usable_minus_margin := rect_minus_margin usable margin
    let rel_to_minus_margin := rel_to.map (fun r => rect_minus_margin r margin)
    if rect_empty usable_minus_margin then
      let geom := match rel_to_minus_margin with
        | some r => rect_center geom.width geom.height r
        | none => geom
      { geom with x := max geom.x margin.left, y := max geom.y margin.top }
    else
      let geom := { geom with width := min geom.width usable_minus_margin.width
                              height := min geom.height usable_minus_margin.height }
      let geom := match rel_to_minus_margin with
        | some r => rect_center geom.width geom.height r
        | none =>
          if !keep_position then rect_center geom.width geom.height usable_minus_margin
          else geom
      rect_move_within geom usable_minus_margin

/-- src/view.rs `View::move_resize`. Modelled from the spec: the
protocol-specific client configure (`xdg_toplevel_view_configure` /
`xwayland_view_configure`, provided by the host, not under src/) is
specified in §4.3 to record `pending = geom`; it is embedded as exactly
that assignment, leaving `current` unchanged. -/
def move_resize (env : Env) (v : View) (geom : Rect) : View :=
  if rect_equals v.state.pending geom then v
  else
    let v := { v with state := { v.state with pending := geom } }
    let v :=
      if v.state.floating then
        { v with state :=
            { v.state with output := nearest_output_to_geom env v.state.pending } }
      else v
    if v.in_layout_change then v
    else { v with saved_geom := Rect.default0, lost_output := false }

/-- src/view.rs `View::set_fallback_natural_geom`. -/
def set_fallback_natural_geom (env : Env) (v : View) : View :=
  let natural := { v.state.natural_geom with width := 640, height := 480 }
  let natural := compute_default_geom env v natural none false
  { v with state := { v.state with natural_geom := natural } }

/-- src/view.rs `View::store_natural_geom`: no-op if fullscreen or tiled;
per-axis capture of `pending` into `natural_geom` otherwise. -/
def store_natural_geom (v : View) : View :=
  if v.state.fullscreen || v.state.tiled ≠ LAB_EDGE_NONE then v
  else
    let ng := v.state.natural_geom
    let ng :=
      if v.state.maximized = VIEW_AXIS_NONE ∨ v.state.maximized = VIEW_AXIS_VERTICAL then
        { ng with x := v.state.pending.x, width := v.state.pending.width }
      else ng
    let ng :=
      if v.state.maximized = VIEW_AXIS_NONE ∨ v.state.maximized = VIEW_AXIS_HORIZONTAL then
        { ng with y := v.state.pending.y, height := v.state.pending.height }
      else ng
    { v with state := { v.state with natural_geom := ng } }

/-- src/view.rs `View::apply_natural_geom`. -/
def apply_natural_geom (env : Env) (v : View) : View :=
  move_resize env v (ensure_geom_onscreen env v v.state.natural_geom)

/-- src/view.rs `View::apply_fullscreen_geom`. -/
def apply_fullscreen_geom (env : Env) (v : View) : View :=
  let geom := env.layoutCoords v.state.output
  if rect_empty geom then v else move_resize env v geom

/-- src/view.rs `View::apply_maximized_geom`. -/
def apply_maximized_geom (env : Env) (v : View) : View :=
  let usable := env.usableArea v.state.output
  let geom := rect_minus_margin usable v.margin
  let geom :=
    if v.state.maximized ≠ VIEW_AXIS_BOTH then
      let natural := ensure_geom_onscreen env v v.state.natural_geom
      if v.state.maximized = VIEW_AXIS_VERTICAL then
        { geom with x := natural.x, width := natural.width }
      else if v.state.maximized = VIEW_AXIS_HORIZONTAL then
        { geom with y := natural.y, height := natural.height }
      else geom
    else geom
  if rect_empty geom then v else move_resize env v geom

/-- src/view.rs `View::apply_tiled_geom`. -/
def apply_tiled_geom (env : Env) (v : View) : View :=
  let usable := env.usableArea v.state.output
  let margin := v.margin
  let x1 := if v.state.tiled &&& LAB_EDGE_RIGHT ≠ 0 then Int.tdiv usable.width 2 else 0
  let x2 := if v.state.tiled &&& LAB_EDGE_LEFT ≠ 0 then Int.tdiv usable.width 2 else usable.width
  let y1 := if v.state.tiled &&& LAB_EDGE_BOTTOM ≠ 0 then Int.tdiv usable.height 2 else 0
  let y2 := if v.state.tiled &&& LAB_EDGE_TOP ≠ 0 then Int.tdiv usable.height 2 else usable.height
  let geom : Rect :=
    { x := usable.x + x1 + margin.left
      y := usable.y + y1 + margin.top
      width := x2 - x1 - (margin.left + margin.right)
      height := y2 - y1 - (margin.top + margin.bottom) }
  if rect_empty geom then v else move_resize env v geom

/-- src/view.rs `View::apply_special_geom`. -/
def apply_special_geom (env : Env) (v : View) : View :=
  if v.state.fullscreen then apply_fullscreen_geom env v
  else if v.state.maximized ≠ VIEW_AXIS_NONE then apply_maximized_geom env v
  else if v.state.tiled ≠ LAB_EDGE_NONE then apply_tiled_geom env v
  else v

/-- src/view.rs `View::fullscreen`; the Bool mirrors whether a non-null
`CView` pointer was returned (i.e. the flag changed). -/
def fullscreen (env : Env) (v : View) (b : Bool) : View × Bool :=
  if v.state.fullscreen = b then (v, false)
  else
    let v := if b then store_natural_geom v else v
    let v := set_fullscreen v b
    if v.state.floating then (apply_natural_geom env v, true)
    else (apply_special_geom env v, true)

/-- src/view.rs `View::maximize`. -/
def maximize (env : Env) (v : View) (axis : ViewAxis) (is_moving : Bool) : View :=
  if v.state.maximized = axis then v
  else
    let v := if !is_moving then store_natural_geom v else v
    let v :=
      if (axis = VIEW_AXIS_HORIZONTAL ∨ axis = VIEW_AXIS_VERTICAL)
          ∧ rect_empty v.state.natural_geom then
        set_fallback_natural_geom env v
      else v
    let v := set_maximized v axis
    if v.state.floating then apply_natural_geom env v else apply_special_geom env v

/-- src/view.rs `View::tile`. -/
def tile (env : Env) (v : View) (edge : LabEdge) (is_moving : Bool) : View :=
  if v.state.tiled = edge then v
  else
    let v := if !is_moving then store_natural_geom v else v
    let v := set_tiled v edge
    if v.state.floating then apply_natural_geom env v else apply_special_geom env v

/-- src/view.rs `View::focus`: true iff focus was immediately granted
(mapped, focus mode `always`, and the host `view_focus_impl` grants). -/
def focusNow (v : View) : Bool :=
  v.state.mapped && v.state.focus_mode = ViewFocusMode.always && v.focusGrants

end View

/-- src/view_grab.rs `should_unsnap`: the Bool is the return value, the
two Ints are the (possibly pinned) x/y out-parameters. -/
def should_unsnap (s : ViewState) (x y : Int) : Bool × Int × Int :=
  if s.floating then (false, x, y)
  else
    let dx := |x - s.pending.x|
    let dy := |y - s.pending.y|
    if s.maximized = VIEW_AXIS_HORIZONTAL then
      if dx < 100 then (false, s.pending.x, y) else (true, x, y)
    else if s.maximized = VIEW_AXIS_VERTICAL then
      if dy < 100 then (false, x, s.pending.y) else (true, x, y)
    else
      if Int.tdiv (dx + dy) 2 < 20 then (false, s.pending.x, s.pending.y)
      else (true, x, y)

/-- src/view_grab.rs `get_snap_target`: the nearest output and the edge
bit set whose cursor distance from its usable area is below 10 px. -/
def get_snap_target (env : Env) (cursor_x cursor_y : Int) : Nat × LabEdge :=
  let output := env.nearestTo cursor_x cursor_y
  let usable := env.usableArea output
  if rect_empty usable then (output, LAB_EDGE_NONE)
  else
    let e1 :=
      if cursor_x < usable.x + 10 then LAB_EDGE_LEFT
      else if cursor_x > usable.x + usable.width - 10 then LAB_EDGE_RIGHT
      else LAB_EDGE_NONE
    let e2 :=
      if cursor_y < usable.y + 10 then LAB_EDGE_TOP
      else if cursor_y > usable.y + usable.height - 10 then LAB_EDGE_BOTTOM
      else LAB_EDGE_NONE
    (output, e1 ||| e2)

/-- src/view_grab.rs `ViewGrab`. -/
structure ViewGrab where
  origin_cursor_x : Int
  origin_cursor_y : Int
  origin_geom : Rect
  resize_edges : LabEdge
deriving DecidableEq, Repr

def ViewGrab.init : ViewGrab := ⟨0, 0, Rect.default0, LAB_EDGE_NONE⟩

/-- src/views.rs `Views`: the registry. `by_id` embeds the
`BTreeMap<ViewId, View>` as an association list in ascending key order
(ids are allocated monotonically and never reused, so insertion order is
key order); `order` is the stacking order back-to-front. Foreign-toplevel
client rosters and the cycle list are omitted: no claim concerns them. -/
structure Views where
  by_id : List (ViewId × View)
  max_used_id : ViewId
  order : List ViewId
  active_id : ViewId
  grabbed_id : ViewId
  moving_id : ViewId
  resizing_id : ViewId
  grab : ViewGrab
deriving DecidableEq, Repr

namespace Views

/-- `self.by_id.get(&id)` on the association list. -/
def find (v : Views) (id : ViewId) : Option View :=
  (v.by_id.find? (fun p => p.1 = id)).map Prod.snd

/-- In-place mutation of the entry for `id` (Rust `get_mut`), as a keyed
map over the association list. -/
def replace (v : Views) (id : ViewId) (w : View) : Views :=
  { v with by_id := v.by_id.map (fun p => if p.1 = id then (p.1, w) else p) }

/-- src/views.rs `Views::add` (`View::new` data supplied by the caller as
the external per-view facts; the fresh view starts from
`ViewState.init`). Returns the new registry and the fresh id. -/
def add (v : Views) (isXwayland : Bool) (rootId : ViewId) (modalDialog hasStrut focusGrants : Bool)
    (margin : Border) : Views × ViewId :=
  let id := v.max_used_id + 1
  let view : View :=
    { state := ViewState.init, isXwayland := isXwayland, rootId := rootId
      modalDialog := modalDialog, hasStrut := hasStrut, focusGrants := focusGrants
      margin := margin, saved_geom := Rect.default0
      in_layout_change := false, lost_output := false }
  ({ v with max_used_id := id, by_id := v.by_id ++ [(id, view)]
            order := v.order ++ [id] }, id)

/-- src/views.rs `Views::remove`: drop from `by_id`, retain `order`. -/
def remove (v : Views) (id : ViewId) : Views :=
  { v with by_id := v.by_id.filter (fun p => p.1 ≠ id)
           order := v.order.filter (fun i => i ≠ id) }

/-- src/view_api.rs `view_get_state`: the null pointer becomes `none`. -/
def get_state (v : Views) (id : ViewId) : Option ViewState :=
  (v.find id).map View.state

/-- src/views.rs `Views::get_root_of`. -/
def get_root_of (v : Views) (id : ViewId) : ViewId :=
  ((v.find id).map View.rootId).getD 0

/-- src/views.rs `Views::get_modal_dialog`. -/
def get_modal_dialog (v : Views) (id : ViewId) : Option ViewId :=
  match v.find id with
  | none => none
  | some view =>
    if view.state.mapped && view.modalDialog then some id
    else
      let root := view.rootId
      (v.order.reverse.filter (fun i => i ≠ id && i ≠ root)).find? (fun i =>
        match v.find i with
        | some w => w.state.mapped && w.rootId = root && w.modalDialog
        | none => false)

/-- src/views.rs `Views::is_active_visible`. -/
def is_active_visible (v : Views) : Bool :=
  ((v.find v.active_id).map (fun a => a.state.visible)).getD false

/-- src/views.rs `Views::set_active`. -/
def set_active (v : Views) (id : ViewId) : Views :=
  if id = v.active_id then v
  else
    let prev_id := v.active_id
    let v := { v with active_id := id }
    let v := match v.find prev_id with
      | some prev => v.replace prev_id (prev.set_active false)
      | none => v
    match v.find id with
    | some view => v.replace id (view.set_active true)
    | none => v

/-- src/views.rs `Views::reset_grab_for` (the seat focus-override call is
an external effect with no registry state). -/
def reset_grab_for (v : Views) (id : Option ViewId) : Views :=
  if id = some v.grabbed_id ∨ id = none then
    { v with grabbed_id := 0, moving_id := 0, resizing_id := 0, grab := ViewGrab.init }
  else v

/-- src/views.rs `Views::raise`; `update_top_layer_visibility` and
`cursor_update_focus` are external effects with no registry state. -/
def raise (v : Views) (id : ViewId) : Views :=
  let noop := match v.order.getLast? with
    | some front => id = front || v.get_root_of front = id
    | none => false
  if noop then v
  else
    match v.find id with
    | none => v
    | some view =>
      let root := view.rootId
      let others := v.order.filter (fun i => i ≠ id && i ≠ root && v.get_root_of i = root)
      let ids_to_raise := root :: others ++ (if id ≠ root then [id] else [])
      { v with order := v.order.filter (fun i => !ids_to_raise.contains i) ++ ids_to_raise }

/-- src/views.rs `Views::focus`. -/
def focus (v : Views) (id : ViewId) (raiseIt : Bool) : Views :=
  let id_to_focus := (v.get_modal_dialog id).getD id
  let v := if raiseIt then v.raise id_to_focus else v
  match v.find id_to_focus with
  | some view => if view.focusNow then v.set_active id_to_focus else v
  | none => v

/-- src/views.rs `Views::focus_topmost`. -/
def focus_topmost (env : Env) (v : Views) : Views :=
  match v.order.reverse.find? (fun i =>
      match v.find i with
      | some w => w.state.focusable && !w.state.minimized
      | none => false) with
  | some i => v.focus i true
  | none => if env.focusNullGrants then v.set_active 0 else v

/-- src/views.rs `Views::minimize`; returns the registry and whether any
visibility changed. The `for (&i, v) in &mut self.by_id` loop becomes a
keyed map (the body touches only the current entry and reads the
unchanged `grabbed_id`). -/
def minimize (env : Env) (v : Views) (id : ViewId) (minimized : Bool) : Views × Bool :=
  let step :=
    match v.find id with
    | some view =>
      if view.state.minimized ≠ minimized then
        let root := view.rootId
        let results := v.by_id.map (fun (p : ViewId × View) =>
          if p.2.rootId = root then
            let r := p.2.set_minimized minimized
            ((p.1, r.1), r.2, decide (p.1 = v.grabbed_id))
          else (p, false, false))
        let v' := { v with by_id := results.map Prod.fst }
        let vis := results.any (fun r => r.2.1)
        let reset := results.any (fun r => r.2.2)
        let v' := if reset then v'.reset_grab_for none else v'
        (v', vis)
      else (v, false)
    | none => (v, false)
  let v' := step.1
  let vis := step.2
  if vis then
    if !minimized then (v'.focus id true, vis)
    else if !v'.is_active_visible then (focus_topmost env v', vis)
    else (v', vis)
  else (v', vis)

/-- src/views.rs `Views::fullscreen`; the Bool mirrors whether a non-null
pointer was returned. -/
def fullscreen (env : Env) (v : Views) (id : ViewId) (b : Bool) : Views × Bool :=
  match v.find id with
  | none => (v, false)
  | some view =>
    let r := View.fullscreen env view b
    let v := v.replace id r.1
    if r.2 then (v.reset_grab_for (some id), true) else (v, false)

/-- src/views.rs `Views::maximize`. -/
def maximize (env : Env) (v : Views) (id : ViewId) (axis : ViewAxis) : Views :=
  match v.find id with
  | some view =>
    if view.state.maximized ≠ axis then
      let v' := v.replace id (View.maximize env view axis (decide (id = v.moving_id)))
      v'.reset_grab_for (some id)
    else v
  | none => v

/-- src/views.rs `Views::tile`. -/
def tile (env : Env) (v : Views) (id : ViewId) (edge : LabEdge) : Views :=
  match v.find id with
  | some view =>
    if view.state.tiled ≠ edge then
      let v' := v.replace id (View.tile env view edge (decide (id = v.moving_id)))
      v'.reset_grab_for (some id)
    else v
  | none => v

/-- src/views.rs `Views::set_grab_context`. -/
def set_grab_context (v : Views) (id : ViewId) (cursor_x cursor_y : Int)
    (edges : LabEdge) : Views :=
  if v.grabbed_id = 0 then
    match v.find id with
    | some view =>
      { v with grabbed_id := id
               grab := { origin_cursor_x := cursor_x, origin_cursor_y := cursor_y
                         origin_geom := view.state.current, resize_edges := edges } }
    | none => v
  else v

/-- src/views.rs `Views::start_move` (the `ViewGrab::start_move` guard and
its `store_natural_geom` side effect inlined). -/
def start_move (v : Views) (id : ViewId) : Views × Bool :=
  if id = v.grabbed_id then
    match v.find id with
    | some view =>
      if view.hasStrut || view.state.fullscreen then (v, false)
      else ({ v.replace id view.store_natural_geom with moving_id := id }, true)
    | none => (v, false)
  else (v, false)

/-- src/views.rs `Views::start_resize` (the `ViewGrab::start_resize` body
inlined). -/
def start_resize (v : Views) (id : ViewId) (edges : LabEdge) : Views × Bool :=
  if id = v.grabbed_id then
    match v.find id with
    | some view =>
      if view.hasStrut || view.state.fullscreen
          || view.state.maximized = VIEW_AXIS_BOTH then (v, false)
      else
        let re := if edges ≠ LAB_EDGE_NONE then edges else v.grab.resize_edges
        let m := view.state.maximized
        let m := if re &&& LAB_EDGES_LEFT_RIGHT ≠ 0 then m &&& (3 ^^^ VIEW_AXIS_HORIZONTAL) else m
        let m := if re &&& LAB_EDGES_TOP_BOTTOM ≠ 0 then m &&& (3 ^^^ VIEW_AXIS_VERTICAL) else m
        let view := (view.set_maximized m).set_tiled LAB_EDGE_NONE
        ({ v.replace id view with grab := { v.grab with resize_edges := re }
                                  resizing_id := id }, true)
    | none => (v, false)
  else (v, false)

/-- src/views.rs `Views::snap_to_edge`. -/
def snap_to_edge (env : Env) (v : Views) (cursor_x cursor_y : Int) : Views :=
  match v.find v.moving_id with
  | some view =>
    if view.state.floating then
      let t := get_snap_target env cursor_x cursor_y
      let output := t.1
      let edges := t.2
      if edges ≠ LAB_EDGE_NONE then
        let view := view.set_output output
        if edges = LAB_EDGE_TOP then
          v.replace v.moving_id (View.maximize env view VIEW_AXIS_BOTH true)
        else if edges = LAB_EDGE_BOTTOM then
          let view := View.move_resize env view view.state.natural_geom
          let v := v.replace v.moving_id view
          (v.minimize env v.moving_id true).1
        else
          v.replace v.moving_id (View.tile env view edges true)
      else v
    else v
  | none => v

end Views

/-! Concrete fixtures used by witnesses and counterexamples. -/

/-- A view with the given state, root id and margin; the external
protocol facts default to an ordinary mapped xdg-shell toplevel. -/
def mkView (st : ViewState) (root : ViewId) (margin : Border) : View :=
  { state := st, isXwayland := false, rootId := root, modalDialog := false
    hasStrut := false, focusGrants := true, margin := margin
    saved_geom := Rect.default0, in_layout_change := false, lost_output := false }

/-- An environment with a single 1920×1080 output whose whole area is
usable. -/
def env1 : Env :=
  { usableArea := fun _ => ⟨0, 0, 1920, 1080⟩
    layoutCoords := fun _ => ⟨0, 0, 1920, 1080⟩
    outputIsUsable := fun _ => true
    nearestTo := fun _ _ => 0
    focusNullGrants := false }

/-- An environment whose outputs have an empty usable area. -/
def envEmpty : Env :=
  { usableArea := fun _ => ⟨0, 0, 0, 0⟩
    layoutCoords := fun _ => ⟨0, 0, 0, 0⟩
    outputIsUsable := fun _ => false
    nearestTo := fun _ _ => 0
    focusNullGrants := false }

/-- The empty registry. -/
def views0 : Views :=
  { by_id := [], max_used_id := 0, order := [], active_id := 0
    grabbed_id := 0, moving_id := 0, resizing_id := 0, grab := ViewGrab.init }

/-- A mapped, floating view state at (100, 100, 400, 300). -/
def stFloating : ViewState :=
  { ViewState.init with mapped := true, focus_mode := .always
                        pending := ⟨100, 100, 400, 300⟩
                        current := ⟨100, 100, 400, 300⟩ }

/-- A non-floating state that is both horizontally maximized and tiled
(reachable: tile the view, then maximize one axis). -/
def stC6 : ViewState :=
  { ViewState.init with mapped := true, maximized := VIEW_AXIS_HORIZONTAL
                        tiled := LAB_EDGE_TOP, pending := ⟨0, 0, 400, 300⟩ }

/-- A both-axes-maximized, non-tiled view state. -/
def stBoth : ViewState :=
  { ViewState.init with mapped := true, maximized := VIEW_AXIS_BOTH
                        pending := ⟨0, 0, 400, 300⟩ }

/-- Registry with one view that is active, grabbed and moving. -/
def vC2 : Views :=
  { by_id := [(1, mkView { stFloating with active := true } 1 ⟨0, 0, 0, 0⟩)]
    max_used_id := 1, order := [1], active_id := 1
    grabbed_id := 1, moving_id := 1, resizing_id := 0, grab := ViewGrab.init }

/-- Registry with one active view, used to exercise `set_active` with an
unknown id. -/
def vC9 : Views :=
  { by_id := [(1, mkView { stFloating with active := true } 1 ⟨0, 0, 0, 0⟩)]
    max_used_id := 1, order := [1], active_id := 1
    grabbed_id := 0, moving_id := 0, resizing_id := 0, grab := ViewGrab.init }

/-- Three views: 1 is a root with transient child 3; 2 is unrelated.
Stacking back-to-front: [1, 2, 3] (the child is on top). -/
def vC8 : Views :=
  { by_id := [(1, mkView stFloating 1 ⟨0, 0, 0, 0⟩),
              (2, mkView stFloating 2 ⟨0, 0, 0, 0⟩),
              (3, mkView stFloating 1 ⟨0, 0, 0, 0⟩)]
    max_used_id := 3, order := [1, 2, 3], active_id := 0
    grabbed_id := 0, moving_id := 0, resizing_id := 0, grab := ViewGrab.init }

/-- Same population as `vC8` with stacking [1, 3, 2]: the unrelated view
2 is on top, so raising the group of 1 restacks. -/
def vC8b : Views :=
  { vC8 with order := [1, 3, 2] }

/-- The view registered as id 1 in `vC8`. -/
def viewRoot1 : View := mkView stFloating 1 ⟨0, 0, 0, 0⟩

/-- A fullscreen view used to witness that `store_natural_geom` is a
no-op while fullscreen. -/
def viewFsC1 : View := mkView { stFloating with fullscreen := true } 1 ⟨0, 0, 0, 0⟩

/-- Registry with a single floating view at (100, 100, 400, 300), no
grab in progress. -/
def vC3 : Views :=
  { by_id := [(1, mkView stFloating 1 ⟨0, 0, 0, 0⟩)]
    max_used_id := 1, order := [1], active_id := 0
    grabbed_id := 0, moving_id := 0, resizing_id := 0, grab := ViewGrab.init }

/-- Trace for the natural-geometry invariant: a fresh view is added,
fullscreened, then maximized horizontally while still fullscreen. -/
def vC1add : Views := (views0.add false 1 false false true ⟨0, 0, 0, 0⟩).1

def vC1fs : Views := (Views.fullscreen env1 vC1add 1 true).1

def vC1max : Views := Views.maximize env1 vC1fs 1 VIEW_AXIS_HORIZONTAL

/-- A two-output environment: output 0 covers x below 1000, output 1
covers x from 1000 on; the cursor maps to the output containing it. -/
def envC7 : Env :=
  { usableArea := fun o => if o = 0 then ⟨0, 0, 1000, 1000⟩ else ⟨1000, 0, 1000, 1000⟩
    layoutCoords := fun o => if o = 0 then ⟨0, 0, 1000, 1000⟩ else ⟨1000, 0, 1000, 1000⟩
    outputIsUsable := fun _ => true
    nearestTo := fun x _ => if x < 1000 then 0 else 1
    focusNullGrants := false }

/-- A floating view whose natural geometry (centred on output 0) differs
from its pending geometry. -/
def wC7 : View :=
  mkView { stFloating with natural_geom := ⟨50, 50, 200, 200⟩ } 1 ⟨0, 0, 0, 0⟩

/-- Registry with `wC7` as the view being moved. -/
def vC7 : Views :=
  { by_id := [(1, wC7)], max_used_id := 1, order := [1], active_id := 0
    grabbed_id := 0, moving_id := 1, resizing_id := 0, grab := ViewGrab.init }

/-! Helper lemmas about the association-list registry. -/

theorem find?_key_filter_ne (l : List (ViewId × View)) (id j : ViewId) (h : j ≠ id) :
    (l.filter (fun p => p.1 ≠ id)).find? (fun p => p.1 = j)
      = l.find? (fun p => p.1 = j) := by
  induction l with
  | nil => rfl
  | cons p t ih =>
    by_cases hp : p.1 = id
    · have h1 : ¬((fun (q : ViewId × View) => decide (q.1 ≠ id)) p = true) := by simp [hp]
      have h2 : ¬((fun (q : ViewId × View) => decide (q.1 = j)) p = true) := by
        simp only [decide_eq_true_eq, hp]
        exact fun hh => h hh.symm
      rw [@List.filter_cons_of_neg _ (fun q => decide (q.1 ≠ id)) p t h1,
          @List.find?_cons_of_neg _ (fun q => decide (q.1 = j)) p t h2]
      exact ih
    · have h1 : ((fun (q : ViewId × View) => decide (q.1 ≠ id)) p = true) := by simp [hp]
      rw [@List.filter_cons_of_pos _ (fun q => decide (q.1 ≠ id)) p t h1]
      by_cases hj : p.1 = j
      · have h2 : ((fun (q : ViewId × View) => decide (q.1 = j)) p = true) := by simp [hj]
        rw [@List.find?_cons_of_pos _ (fun q => decide (q.1 = j)) p _ h2,
            @List.find?_cons_of_pos _ (fun q => decide (q.1 = j)) p t h2]
      · have h2 : ¬((fun (q : ViewId × View) => decide (q.1 = j)) p = true) := by simp [hj]
        rw [@List.find?_cons_of_neg _ (fun q => decide (q.1 = j)) p _ h2,
            @List.find?_cons_of_neg _ (fun q => decide (q.1 = j)) p t h2]
        exact ih

theorem find?_map_keyfix (l : List (ViewId × View)) (g : ViewId × View → ViewId × View)
    (hg : ∀ p, (g p).1 = p.1) (j : ViewId) :
    (l.map g).find? (fun p => p.1 = j) = (l.find? (fun p => p.1 = j)).map g := by
  have hfun : ((fun (p : ViewId × View) => decide (p.1 = j)) ∘ g)
      = (fun (p : ViewId × View) => decide (p.1 = j)) := by
    funext p
    simp [Function.comp, hg p]
  rw [List.find?_map, hfun]

theorem find_replace_other (v : Views) (id j : ViewId) (w : View) (h : j ≠ id) :
    (v.replace id w).find j = v.find j := by
  unfold Views.replace Views.find
  rw [show (fun (p : ViewId × View) => if p.1 = id then (p.1, w) else p)
        = (fun p => if p.1 = id then (p.1, w) else p) from rfl]
  rw [find?_map_keyfix _ _ (by intro p; by_cases hp : p.1 = id <;> simp [hp])]
  cases hf : v.by_id.find? (fun p => p.1 = j) with
  | none => rfl
  | some p =>
    have hpj : p.1 = j := by simpa using List.find?_some hf
    simp [hpj, h]

theorem find_replace_self (v : Views) (id : ViewId) (w : View) (u : View)
    (h : v.find id = some u) :
    (v.replace id w).find id = some w := by
  unfold Views.replace Views.find
  rw [find?_map_keyfix _ _ (by intro p; by_cases hp : p.1 = id <;> simp [hp])]
  unfold Views.find at h
  cases hf : v.by_id.find? (fun p => p.1 = id) with
  | none => rw [hf] at h; simp at h
  | some p =>
    have hpj : p.1 = id := by simpa using List.find?_some hf
    simp [hpj]

end Labwc

namespace Labwc

/-- C4 counterexample: for the floating state `stFloating` and candidate
position (5, 7), `should_unsnap` returns false (the claim asserts it
returns true for floating states). -/
theorem C4_cex :
    stFloating.floating = true ∧ should_unsnap stFloating 5 7 = (false, 5, 7) := by
  decide

/-- C4 (amended): for every floating view state and every candidate
position, `should_unsnap` returns false (not true) and leaves both
coordinates unchanged. -/
theorem C4_thm (s : ViewState) (x y : Int) (h : s.floating = true) :
    should_unsnap s x y = (false, x, y) := by
  simp [should_unsnap, h]

/-- C4 witness: the amended theorem at the concrete floating state. -/
theorem C4_witness : should_unsnap stFloating 11 22 = (false, 11, 22) :=
  C4_thm stFloating 11 22 (by decide)

/-- C6 counterexample: a reachable state that is tiled and horizontally
maximized; at Δ = (50, 0) the claim requires unsnap to succeed (since
(50+0)/2 ≥ 20 and the view is tiled), but the code dispatches on the
maximized axis first and refuses, pinning x. -/
theorem C6_cex :
    stC6.tiled ≠ LAB_EDGE_NONE ∧ stC6.floating = false
    ∧ 20 ≤ Int.tdiv (|(50 : Int) - stC6.pending.x| + |(0 : Int) - stC6.pending.y|) 2
    ∧ should_unsnap stC6 50 0 = (false, 0, 0) := by
  decide

/-- C6 (amended): for every non-floating state, `should_unsnap`
dispatches on the maximized axis before the tiled bits: if maximized is
exactly horizontal (even when also tiled), it refuses and pins only x
exactly when |Δx| < 100; symmetrically for vertical; only otherwise
(maximized none or both) does it refuse and pin both coordinates exactly
when (|Δx| + |Δy|)/2 < 20. -/
theorem C6_thm (s : ViewState) (x y : Int) (h : s.floating = false) :
    (s.maximized = VIEW_AXIS_HORIZONTAL →
      should_unsnap s x y =
        (if |x - s.pending.x| < 100 then (false, s.pending.x, y) else (true, x, y)))
    ∧ (s.maximized = VIEW_AXIS_VERTICAL →
      should_unsnap s x y =
        (if |y - s.pending.y| < 100 then (false, x, s.pending.y) else (true, x, y)))
    ∧ (s.maximized ≠ VIEW_AXIS_HORIZONTAL → s.maximized ≠ VIEW_AXIS_VERTICAL →
      should_unsnap s x y =
        (if Int.tdiv (|x - s.pending.x| + |y - s.pending.y|) 2 < 20
         then (false, s.pending.x, s.pending.y) else (true, x, y))) := by
  refine ⟨fun hm => ?_, fun hm => ?_, fun hm1 hm2 => ?_⟩
  · simp [should_unsnap, h, hm, VIEW_AXIS_HORIZONTAL]
  · simp [should_unsnap, h, hm, VIEW_AXIS_HORIZONTAL, VIEW_AXIS_VERTICAL]
  · simp [should_unsnap, h, hm1, hm2]

/-- C6 witness: the amended theorem at the both-maximized state with
Δ = (50, 0): (50+0)/2 ≥ 20, so unsnap succeeds. -/
theorem C6_witness : should_unsnap stBoth 50 0 = (true, 50, 0) := by
  have h := (C6_thm stBoth 50 0 (by decide)).2.2 (by decide) (by decide)
  simpa using h

/-- C10: `get_snap_target` never reports both LEFT and RIGHT, nor both
TOP and BOTTOM, and reports no edges when the nearest output's usable
area is empty. -/
theorem C10_thm (env : Env) (cx cy : Int) :
    ((get_snap_target env cx cy).2 &&& LAB_EDGE_LEFT = 0
      ∨ (get_snap_target env cx cy).2 &&& LAB_EDGE_RIGHT = 0)
    ∧ ((get_snap_target env cx cy).2 &&& LAB_EDGE_TOP = 0
      ∨ (get_snap_target env cx cy).2 &&& LAB_EDGE_BOTTOM = 0)
    ∧ (rect_empty (env.usableArea (get_snap_target env cx cy).1) = true
      → (get_snap_target env cx cy).2 = LAB_EDGE_NONE) := by
  simp only [get_snap_target]
  by_cases h0 : rect_empty (env.usableArea (env.nearestTo cx cy)) = true
  · simp [h0]
    decide
  · simp only [h0, if_false]
    refine ⟨?_, ?_, fun hh => absurd hh h0⟩
    · split_ifs <;> simp <;> decide
    · split_ifs <;> simp <;> decide

/-- C10 witness: no edges on an output whose usable area is empty. -/
theorem C10_witness : (get_snap_target envEmpty 0 0).2 = LAB_EDGE_NONE :=
  (C10_thm envEmpty 0 0).2.2 (by decide)

/-- C5 counterexample: `rect_move_within` of a 30-wide rect into a
20-wide bound starting at the bound's origin yields x = −10, not the
bound's origin x = 0 as the claim requires for an oversized axis. -/
theorem C5_cex :
    (⟨0, 0, 20, 10⟩ : Rect).width < (⟨0, 0, 30, 10⟩ : Rect).width
    ∧ ¬((⟨0, 0, 30, 10⟩ : Rect).x < (⟨0, 0, 20, 10⟩ : Rect).x)
    ∧ (rect_move_within ⟨0, 0, 30, 10⟩ ⟨0, 0, 20, 10⟩).x = -10
    ∧ (rect_move_within ⟨0, 0, 30, 10⟩ ⟨0, 0, 20, 10⟩).x ≠ (⟨0, 0, 20, 10⟩ : Rect).x := by
  decide

/-- C5 (amended): `rect_move_within` never changes width or height; when
the rect fits on an axis it translates minimally into the bound; when it
is oversized on an axis it aligns to the bound's origin only if it
started left/above of it, and otherwise right/bottom-aligns (placing the
origin before the bound's origin). -/
theorem C5_thm (r bound : Rect) :
    (rect_move_within r bound).width = r.width
    ∧ (rect_move_within r bound).height = r.height
    ∧ (r.width ≤ bound.width →
        bound.x ≤ (rect_move_within r bound).x
        ∧ (rect_move_within r bound).x + r.width ≤ bound.x + bound.width
        ∧ ∀ z : Int, bound.x ≤ z → z + r.width ≤ bound.x + bound.width →
            ((rect_move_within r bound).x - r.x).natAbs ≤ (z - r.x).natAbs)
    ∧ (bound.width < r.width →
        (rect_move_within r bound).x
          = if r.x < bound.x then bound.x else bound.x + bound.width - r.width)
    ∧ (r.height ≤ bound.height →
        bound.y ≤ (rect_move_within r bound).y
        ∧ (rect_move_within r bound).y + r.height ≤ bound.y + bound.height
        ∧ ∀ z : Int, bound.y ≤ z → z + r.height ≤ bound.y + bound.height →
            ((rect_move_within r bound).y - r.y).natAbs ≤ (z - r.y).natAbs)
    ∧ (bound.height < r.height →
        (rect_move_within r bound).y
          = if r.y < bound.y then bound.y else bound.y + bound.height - r.height) := by
  refine ⟨?_, ?_, fun hw => ?_, fun hw => ?_, fun hh => ?_, fun hh => ?_⟩
  · simp [rect_move_within]
  · simp [rect_move_within]
  · simp only [rect_move_within]
    split_ifs <;> exact ⟨by omega, by omega, fun z h1 h2 => by omega⟩
  · simp only [rect_move_within]
    split_ifs <;> omega
  · simp only [rect_move_within]
    split_ifs <;> exact ⟨by omega, by omega, fun z h1 h2 => by omega⟩
  · simp only [rect_move_within]
    split_ifs <;> omega

/-- C5 witness: the fitting-case conclusions at a concrete input. -/
theorem C5_witness :
    (0 : Int) ≤ (rect_move_within ⟨25, 0, 10, 10⟩ ⟨0, 0, 20, 10⟩).x
    ∧ (rect_move_within ⟨25, 0, 10, 10⟩ ⟨0, 0, 20, 10⟩).x + 10 ≤ 20 := by
  have h := (C5_thm ⟨25, 0, 10, 10⟩ ⟨0, 0, 20, 10⟩).2.2.1 (by decide)
  exact ⟨h.1, h.2.1⟩

end Labwc

namespace Labwc

/-- C2 counterexample: removing the grabbed, moving, active view 1 drops
it from the registry but leaves `grabbed_id`, `moving_id` and
`active_id` still referencing the removed id — `remove` neither clears
grab slots nor re-focuses. -/
theorem C2_cex :
    (vC2.remove 1).find 1 = none
    ∧ (vC2.remove 1).grabbed_id = 1
    ∧ (vC2.remove 1).moving_id = 1
    ∧ (vC2.remove 1).active_id = 1 := by
  decide

/-- C2 (amended): `remove(id)` only drops the view from `by_id` and
`order`; every other view and all of the grab/active id slots are left
untouched (grab clearing and refocus happen in `unmap_common`, which the
host calls before removal, not in `remove`). -/
theorem C2_thm (v : Views) (id : ViewId) (h : (v.find id).isSome = true) :
    (v.remove id).find id = none
    ∧ (v.remove id).order = v.order.filter (fun i => i ≠ id)
    ∧ (∀ j, j ≠ id → (v.remove id).find j = v.find j)
    ∧ (v.remove id).grabbed_id = v.grabbed_id
    ∧ (v.remove id).moving_id = v.moving_id
    ∧ (v.remove id).resizing_id = v.resizing_id
    ∧ (v.remove id).active_id = v.active_id := by
  refine ⟨?_, rfl, fun j hj => ?_, rfl, rfl, rfl, rfl⟩
  · have hn : (v.by_id.filter (fun p => p.1 ≠ id)).find? (fun p => p.1 = id) = none := by
      rw [List.find?_eq_none]
      intro x hx
      have hne := (List.mem_filter.mp hx).2
      simp only [decide_eq_true_eq] at hne ⊢
      exact hne
    simp [Views.remove, Views.find, hn]
  · simp only [Views.remove, Views.find]
    rw [find?_key_filter_ne _ _ _ hj]

/-- C2 witness: the amended theorem at the concrete registry `vC2`. -/
theorem C2_witness : (vC2.remove 1).moving_id = vC2.moving_id :=
  (C2_thm vC2 1 (by decide)).2.2.2.2.1

/-- C9 counterexample: `set_active`, a public operation keyed on a view
id, is not a no-op for the missing id 2: it records 2 as `active_id` and
deactivates the previously active view 1. -/
theorem C9_cex :
    vC9.find 2 = none
    ∧ vC9.active_id = 1
    ∧ ((vC9.find 1).map (fun w => w.state.active)) = some true
    ∧ (vC9.set_active 2).active_id = 2
    ∧ (((vC9.set_active 2).find 1).map (fun w => w.state.active)) = some false := by
  decide

/-- C9 (amended): for an id not present in the registry (and hence not
in `order`), the public operations keyed on it — `get_state`, `remove`,
`fullscreen`, `maximize`, `tile`, `minimize`, `raise`, `focus`,
`start_move`, `start_resize`, `set_grab_context` — return a neutral
result (none / false / unchanged pair) and leave the registry unchanged;
`set_active` is the exception shown by the counterexample. -/
theorem C9_thm (env : Env) (v : Views) (id : ViewId) (b raiseIt m : Bool)
    (axis : ViewAxis) (edge : LabEdge) (cx cy : Int)
    (hf : v.find id = none) (hord : id ∉ v.order) :
    v.get_state id = none
    ∧ v.remove id = v
    ∧ Views.fullscreen env v id b = (v, false)
    ∧ Views.maximize env v id axis = v
    ∧ Views.tile env v id edge = v
    ∧ Views.minimize env v id m = (v, false)
    ∧ v.raise id = v
    ∧ v.focus id raiseIt = v
    ∧ v.start_move id = (v, false)
    ∧ v.start_resize id edge = (v, false)
    ∧ v.set_grab_context id cx cy edge = v := by
  have hraise : v.raise id = v := by
    simp [Views.raise, hf]
  refine ⟨?_, ?_, ?_, ?_, ?_, ?_, hraise, ?_, ?_, ?_, ?_⟩
  · simp [Views.get_state, hf]
  · have hfind : v.by_id.find? (fun q => q.1 = id) = none := by
      cases hfind : v.by_id.find? (fun q => q.1 = id) with
      | none => rfl
      | some q =>
        simp only [Views.find, hfind] at hf
        simp at hf
    have h1 : v.by_id.filter (fun p => p.1 ≠ id) = v.by_id := by
      rw [List.filter_eq_self]
      intro p hp
      have hne := List.find?_eq_none.mp hfind p hp
      simp only [decide_eq_true_eq] at hne ⊢
      exact hne
    have h2 : v.order.filter (fun i => i ≠ id) = v.order := by
      rw [List.filter_eq_self]
      intro i hi
      simp only [decide_eq_true_eq]
      intro hcontra
      exact hord (hcontra ▸ hi)
    unfold Views.remove
    rw [h1, h2]
  · simp [Views.fullscreen, hf]
  · simp [Views.maximize, hf]
  · simp [Views.tile, hf]
  · simp [Views.minimize, hf]
  · simp [Views.focus, Views.get_modal_dialog, hf, hraise]
  · simp [Views.start_move, hf]
  · simp [Views.start_resize, hf]
  · simp [Views.set_grab_context, hf]

/-- C9 witness: the amended theorem at `vC9` and the missing id 2. -/
theorem C9_witness : Views.maximize env1 vC9 2 VIEW_AXIS_BOTH = vC9 :=
  (C9_thm env1 vC9 2 false false false VIEW_AXIS_BOTH LAB_EDGE_NONE 0 0
    (by decide) (by decide)).2.2.2.1

/-- C1 counterexample: after `add; fullscreen(1, true)`, the registry
operation `maximize(1, horizontal)` overwrites view 1's `natural_geom`
(with the 640×480 fallback) while the view is fullscreen before and
after the call — `View::maximize` never touches the fullscreen flag, so
the write happens while fullscreen. -/
theorem C1_cex :
    ((vC1fs.find 1).map (fun w => w.state.fullscreen)) = some true
    ∧ ((vC1max.find 1).map (fun w => w.state.fullscreen)) = some true
    ∧ ((vC1fs.find 1).map (fun w => w.state.natural_geom)) = some ⟨0, 0, 0, 0⟩
    ∧ ((vC1max.find 1).map (fun w => w.state.natural_geom)) = some ⟨640, 300, 640, 480⟩ := by
  decide

/-- C1 (amended): `store_natural_geom` — the only writer of
`natural_geom` besides the `set_fallback_natural_geom` fallback — is a
no-op whenever the view is fullscreen, tiled, or maximized on both axes:
it captures geometry only while the view is floating or exactly one axis
is maximized. The fallback path (maximizing to a single axis with an
empty stored natural geometry, or initial geometry of a non-floating
xwayland view) may write a synthetic natural geometry regardless. -/
theorem C1_thm (v : View)
    (h : v.state.fullscreen = true ∨ v.state.tiled ≠ LAB_EDGE_NONE
      ∨ v.state.maximized = VIEW_AXIS_BOTH) :
    v.store_natural_geom = v := by
  unfold View.store_natural_geom
  rcases h with h | h | h
  · simp [h]
  · simp [h]
  · by_cases hf : v.state.fullscreen = true
    · simp [hf]
    · by_cases ht : v.state.tiled = LAB_EDGE_NONE
      · rw [if_neg (by simp [hf, ht])]
        simp only [if_neg (show ¬(v.state.maximized = VIEW_AXIS_NONE
            ∨ v.state.maximized = VIEW_AXIS_VERTICAL) from by
          simp [h, VIEW_AXIS_BOTH, VIEW_AXIS_NONE, VIEW_AXIS_VERTICAL]),
          if_neg (show ¬(v.state.maximized = VIEW_AXIS_NONE
            ∨ v.state.maximized = VIEW_AXIS_HORIZONTAL) from by
          simp [h, VIEW_AXIS_BOTH, VIEW_AXIS_NONE, VIEW_AXIS_HORIZONTAL])]
      · simp [ht]

/-- C1 witness: the amended theorem at a concrete fullscreen view. -/
theorem C1_witness : viewFsC1.store_natural_geom = viewFsC1 :=
  C1_thm viewFsC1 (Or.inl (by decide))

end Labwc

namespace Labwc

/-- C8 counterexample: order = [1, 2, 3] with 3 a transient child of
root 1. `raise(1)` is a no-op (the code no-ops because the front view's
root is 1), yet the claim's no-op condition — the top equals the id or
the id's root — does not hold (top = 3, id = 1, root_of(1) = 1), and the
claim's predicted restacking [2, 1, 3] does not happen. -/
theorem C8_cex :
    (vC8.raise 1).order = vC8.order
    ∧ vC8.order.getLast? = some 3
    ∧ ¬((1 : ViewId) = 3 ∨ Views.get_root_of vC8 1 = 3)
    ∧ vC8.order ≠ [2, 1, 3] := by
  decide

/-- Appending a nodup sublist after filtering it out is a permutation. -/
theorem perm_filter_append (l R : List ViewId) (hnodl : l.Nodup) (hnodR : R.Nodup)
    (hsub : ∀ a ∈ R, a ∈ l) :
    (l.filter (fun i => !R.contains i) ++ R).Perm l := by
  have h1 : (l.filter (fun i => !R.contains i)
      ++ l.filter (fun i => R.contains i)).Perm l := by
    have := List.filter_append_perm (fun i => !R.contains i) l
    simpa using this
  have h2 : (l.filter (fun i => R.contains i)).Perm R := by
    rw [List.perm_ext_iff_of_nodup (hnodl.filter _) hnodR]
    intro a
    simp only [List.mem_filter]
    constructor
    · rintro ⟨_, hc⟩
      simpa using hc
    · intro ha
      exact ⟨hsub a ha, by simpa using ha⟩
  exact (List.Perm.append_left _ h2.symm).trans h1

/-- C8 (amended): given id present with root also stacked, `raise(id)`
is a no-op exactly in the code's condition — the top of order equals id,
or the top's root equals id (not: the top equals id's root); otherwise
the stacking becomes: the non-group views in their prior relative order,
then the root, then the other group members in their prior relative
order, then id itself on top when id is not the root, and the new order
is a permutation of the old one. -/
theorem C8_thm (v : Views) (id : ViewId) (view : View) (front : ViewId)
    (hfind : v.find id = some view)
    (hnod : v.order.Nodup)
    (hid : id ∈ v.order) (hroot : view.rootId ∈ v.order)
    (hfront : v.order.getLast? = some front) :
    ((id = front ∨ v.get_root_of front = id) → v.raise id = v)
    ∧ (¬(id = front ∨ v.get_root_of front = id) →
        (v.raise id).order
          = v.order.filter (fun i =>
              !((view.rootId :: v.order.filter (fun i2 =>
                  i2 ≠ id && i2 ≠ view.rootId && v.get_root_of i2 = view.rootId)
                ++ (if id ≠ view.rootId then [id] else [])).contains i))
            ++ (view.rootId :: v.order.filter (fun i2 =>
                  i2 ≠ id && i2 ≠ view.rootId && v.get_root_of i2 = view.rootId)
                ++ (if id ≠ view.rootId then [id] else []))
        ∧ (v.raise id).order.Perm v.order
        ∧ (v.raise id).by_id = v.by_id) := by
  constructor
  · intro hcase
    unfold Views.raise
    simp only [hfront]
    rcases hcase with hc | hc <;> simp [hc]
  · intro hcase
    have hc1 : ¬(id = front) := fun hh => hcase (Or.inl hh)
    have hc2 : ¬(v.get_root_of front = id) := fun hh => hcase (Or.inr hh)
    have hothers_nodup : (v.order.filter (fun i2 =>
        i2 ≠ id && i2 ≠ view.rootId && v.get_root_of i2 = view.rootId)).Nodup :=
      hnod.filter _
    have hid_not : id ∉ v.order.filter (fun i2 =>
        i2 ≠ id && i2 ≠ view.rootId && v.get_root_of i2 = view.rootId) := by
      intro hmem
      have hm := (List.mem_filter.mp hmem).2
      simp at hm
    have hroot_not : view.rootId ∉ v.order.filter (fun i2 =>
        i2 ≠ id && i2 ≠ view.rootId && v.get_root_of i2 = view.rootId) := by
      intro hmem
      have hm := (List.mem_filter.mp hmem).2
      simp at hm
    have hR_nodup : (view.rootId :: v.order.filter (fun i2 =>
        i2 ≠ id && i2 ≠ view.rootId && v.get_root_of i2 = view.rootId)
        ++ (if id ≠ view.rootId then [id] else [])).Nodup := by
      by_cases hir : id = view.rootId
      · rw [if_neg (show ¬(id ≠ view.rootId) from fun hh => hh hir), List.append_nil]
        exact List.nodup_cons.mpr ⟨hroot_not, hothers_nodup⟩
      · rw [if_pos hir]
        refine List.nodup_cons.mpr ⟨?_, ?_⟩
        · intro hmem
          rcases List.mem_append.mp hmem with hm | hm
          · exact hroot_not hm
          · simp at hm
            exact hir hm.symm
        · refine List.Nodup.append hothers_nodup (List.nodup_singleton id) ?_
          intro a ha hb
          simp at hb
          subst hb
          exact hid_not ha
    have hsub : ∀ a ∈ (view.rootId :: v.order.filter (fun i2 =>
        i2 ≠ id && i2 ≠ view.rootId && v.get_root_of i2 = view.rootId)
        ++ (if id ≠ view.rootId then [id] else [])), a ∈ v.order := by
      intro a ha
      rcases List.mem_cons.mp ha with hm | hm
      · exact hm ▸ hroot
      · rcases List.mem_append.mp hm with hm2 | hm2
        · exact (List.mem_filter.mp hm2).1
        · by_cases hir : id = view.rootId
          · rw [if_neg (show ¬(id ≠ view.rootId) from fun hh => hh hir)] at hm2
            simp at hm2
          · rw [if_pos hir] at hm2
            simp at hm2
            rw [hm2]
            exact hid
    unfold Views.raise
    simp only [hfront]
    rw [if_neg (by simp [hc1, hc2])]
    simp only [hfind]
    refine ⟨?_, ?_, ?_⟩
    · trivial
    · exact perm_filter_append v.order _ hnod hR_nodup hsub
    · trivial

/-- C8 witness: with order [1, 3, 2] (unrelated view 2 on top), raising
root 1 restacks to [2, 1, 3]: child 3 above its root, group on top. -/
theorem C8_witness :
    (vC8b.raise 1).order = [2, 1, 3] ∧ (vC8b.raise 1).order.Perm vC8b.order := by
  have h := (C8_thm vC8b 1 viewRoot1 2 (by decide) (by decide) (by decide) (by decide)
    (by decide)).2 (by decide)
  exact ⟨by rw [h.1]; decide, h.2.1⟩

end Labwc

namespace Labwc

theorem rect_equals_iff (a b : Rect) : rect_equals a b = true ↔ a = b := by
  cases a
  cases b
  simp [rect_equals, Rect.mk.injEq]
  tauto

theorem move_resize_pending (env : Env) (v : View) (g : Rect) :
    (View.move_resize env v g).state.pending = g := by
  simp only [View.move_resize]
  by_cases h : rect_equals v.state.pending g = true
  · rw [if_pos h]
    exact (rect_equals_iff _ _).mp h
  · rw [if_neg h]
    split_ifs <;> rfl

theorem move_resize_state (env : Env) (v : View) (g : Rect) :
    (View.move_resize env v g).state.fullscreen = v.state.fullscreen
    ∧ (View.move_resize env v g).state.maximized = v.state.maximized
    ∧ (View.move_resize env v g).state.tiled = v.state.tiled
    ∧ (View.move_resize env v g).state.minimized = v.state.minimized
    ∧ (View.move_resize env v g).state.mapped = v.state.mapped
    ∧ (View.move_resize env v g).state.natural_geom = v.state.natural_geom
    ∧ (View.move_resize env v g).margin = v.margin
    ∧ (View.move_resize env v g).rootId = v.rootId
    ∧ (v.state.floating = false →
        (View.move_resize env v g).state.output = v.state.output) := by
  simp only [View.move_resize]
  by_cases h : rect_equals v.state.pending g = true
  · rw [if_pos h]
    exact ⟨rfl, rfl, rfl, rfl, rfl, rfl, rfl, rfl, fun _ => rfl⟩
  · rw [if_neg h]
    split_ifs <;> refine ⟨rfl, rfl, rfl, rfl, rfl, rfl, rfl, rfl, fun hnf => ?_⟩ <;>
      first | rfl | simp_all [ViewState.floating]

/-- `ensure_geom_onscreen` leaves a rectangle unchanged when it already
lies inside the output's usable area minus (nonnegative) margins. -/
theorem ensure_id (env : Env) (v : View) (g : Rect)
    (hgw : 0 < g.width) (hgh : 0 < g.height)
    (hml : 0 ≤ v.margin.left) (hmt : 0 ≤ v.margin.top)
    (hmr : 0 ≤ v.margin.right) (hmb : 0 ≤ v.margin.bottom)
    (hx : (env.usableArea v.state.output).x + v.margin.left ≤ g.x)
    (hy : (env.usableArea v.state.output).y + v.margin.top ≤ g.y)
    (hxw : g.x + g.width ≤ (env.usableArea v.state.output).x
      + (env.usableArea v.state.output).width - v.margin.right)
    (hyh : g.y + g.height ≤ (env.usableArea v.state.output).y
      + (env.usableArea v.state.output).height - v.margin.bottom) :
    View.ensure_geom_onscreen env v g = g := by
  have hdw : Int.tdiv (g.width - 1) 2 = (g.width - 1) / 2 :=
    Int.tdiv_eq_ediv (by omega) (by omega)
  have hdh : Int.tdiv (g.height - 1) 2 = (g.height - 1) / 2 :=
    Int.tdiv_eq_ediv (by omega) (by omega)
  have hge : rect_empty g = false := by
    simp [rect_empty]
    omega
  have hue : rect_empty (rect_minus_margin (env.usableArea v.state.output) v.margin)
      = false := by
    simp [rect_empty, rect_minus_margin]
    omega
  have hint : rect_intersects
      { x := g.x + min 16 (Int.tdiv (g.width - 1) 2)
        y := g.y + min 16 (Int.tdiv (g.height - 1) 2)
        width := g.width - 2 * min 16 (Int.tdiv (g.width - 1) 2)
        height := g.height - 2 * min 16 (Int.tdiv (g.height - 1) 2) }
      (env.usableArea v.state.output) = true := by
    simp [rect_intersects, rect_empty, hdw, hdh]
    omega
  unfold View.ensure_geom_onscreen
  rw [if_neg (by simp [hge])]
  rw [if_neg (by simp [hue])]
  rw [if_neg (by simp [hint])]

end Labwc

namespace Labwc

theorem store_natural_floating (v : View)
    (h1 : v.state.fullscreen = false) (h3 : v.state.tiled = LAB_EDGE_NONE)
    (h2 : v.state.maximized = VIEW_AXIS_NONE) :
    v.store_natural_geom
      = { v with state := { v.state with natural_geom := v.state.pending } } := by
  simp only [View.store_natural_geom]
  rw [if_neg (by simp [h1, h3])]
  rw [if_pos (Or.inl h2 : v.state.maximized = VIEW_AXIS_NONE
        ∨ v.state.maximized = VIEW_AXIS_VERTICAL),
      if_pos (Or.inl h2 : v.state.maximized = VIEW_AXIS_NONE
        ∨ v.state.maximized = VIEW_AXIS_HORIZONTAL)]

theorem store_natural_horizontal (v : View)
    (h1 : v.state.fullscreen = false) (h3 : v.state.tiled = LAB_EDGE_NONE)
    (h2 : v.state.maximized = VIEW_AXIS_HORIZONTAL) :
    v.store_natural_geom
      = { v with state := { v.state with natural_geom :=
          { v.state.natural_geom with y := v.state.pending.y
                                      height := v.state.pending.height } } } := by
  simp only [View.store_natural_geom]
  rw [if_neg (by simp [h1, h3])]
  rw [if_neg (show ¬(v.state.maximized = VIEW_AXIS_NONE
        ∨ v.state.maximized = VIEW_AXIS_VERTICAL) from by
      simp [h2, VIEW_AXIS_NONE, VIEW_AXIS_VERTICAL, VIEW_AXIS_HORIZONTAL]),
      if_pos (Or.inr h2 : v.state.maximized = VIEW_AXIS_NONE
        ∨ v.state.maximized = VIEW_AXIS_HORIZONTAL)]

theorem find_reset_grab (v : Views) (o : Option ViewId) (j : ViewId) :
    (v.reset_grab_for o).find j = v.find j := by
  unfold Views.reset_grab_for
  split_ifs <;> rfl

end Labwc

namespace Labwc

/-- Maximizing a floating view horizontally (outside a drag): the free
axis keeps the pending y/height, the maximized axis takes the usable
area minus margins, and the natural geometry captures the old pending
rect. -/
theorem maximize_h_floating (env : Env) (v : View)
    (h1 : v.state.fullscreen = false) (h2 : v.state.maximized = VIEW_AXIS_NONE)
    (h3 : v.state.tiled = LAB_EDGE_NONE)
    (hgw : 0 < v.state.pending.width) (hgh : 0 < v.state.pending.height)
    (hml : 0 ≤ v.margin.left) (hmt : 0 ≤ v.margin.top)
    (hmr : 0 ≤ v.margin.right) (hmb : 0 ≤ v.margin.bottom)
    (hx : (env.usableArea v.state.output).x + v.margin.left ≤ v.state.pending.x)
    (hy : (env.usableArea v.state.output).y + v.margin.top ≤ v.state.pending.y)
    (hxw : v.state.pending.x + v.state.pending.width
      ≤ (env.usableArea v.state.output).x + (env.usableArea v.state.output).width
        - v.margin.right)
    (hyh : v.state.pending.y + v.state.pending.height
      ≤ (env.usableArea v.state.output).y + (env.usableArea v.state.output).height
        - v.margin.bottom) :
    (View.maximize env v VIEW_AXIS_HORIZONTAL false).state.pending
        = { x := (env.usableArea v.state.output).x + v.margin.left
            y := v.state.pending.y
            width := (env.usableArea v.state.output).width - v.margin.left - v.margin.right
            height := v.state.pending.height }
    ∧ (View.maximize env v VIEW_AXIS_HORIZONTAL false).state.natural_geom = v.state.pending
    ∧ (View.maximize env v VIEW_AXIS_HORIZONTAL false).state.maximized = VIEW_AXIS_HORIZONTAL
    ∧ (View.maximize env v VIEW_AXIS_HORIZONTAL false).state.fullscreen = false
    ∧ (View.maximize env v VIEW_AXIS_HORIZONTAL false).state.tiled = LAB_EDGE_NONE
    ∧ (View.maximize env v VIEW_AXIS_HORIZONTAL false).state.output = v.state.output
    ∧ (View.maximize env v VIEW_AXIS_HORIZONTAL false).margin = v.margin := by
  have hpe : rect_empty v.state.pending = false := by
    simp [rect_empty]
    omega
  have hens : View.ensure_geom_onscreen env
      { v with state := { v.state with natural_geom := v.state.pending,
                                       maximized := VIEW_AXIS_HORIZONTAL } }
      v.state.pending = v.state.pending :=
    ensure_id env _ _ hgw hgh hml hmt hmr hmb hx hy hxw hyh
  have hstep : View.maximize env v VIEW_AXIS_HORIZONTAL false
      = View.apply_maximized_geom env
          { v with state := { v.state with natural_geom := v.state.pending,
                                           maximized := VIEW_AXIS_HORIZONTAL } } := by
    simp only [View.maximize]
    rw [if_neg (show ¬(v.state.maximized = VIEW_AXIS_HORIZONTAL) from by
      simp [h2, VIEW_AXIS_NONE, VIEW_AXIS_HORIZONTAL])]
    rw [store_natural_floating v h1 h3 h2]
    simp [View.set_maximized, View.apply_special_geom, ViewState.floating,
      h1, h2, h3, hpe, VIEW_AXIS_NONE, VIEW_AXIS_HORIZONTAL, VIEW_AXIS_VERTICAL]
  have hegeom : rect_empty
      { x := (env.usableArea v.state.output).x + v.margin.left
        y := v.state.pending.y
        width := (env.usableArea v.state.output).width - v.margin.left - v.margin.right
        height := v.state.pending.height } = false := by
    simp [rect_empty]
    omega
  have happ : View.apply_maximized_geom env
      { v with state := { v.state with natural_geom := v.state.pending,
                                       maximized := VIEW_AXIS_HORIZONTAL } }
      = View.move_resize env
          { v with state := { v.state with natural_geom := v.state.pending,
                                           maximized := VIEW_AXIS_HORIZONTAL } }
          { x := (env.usableArea v.state.output).x + v.margin.left
            y := v.state.pending.y
            width := (env.usableArea v.state.output).width - v.margin.left - v.margin.right
            height := v.state.pending.height } := by
    simp only [View.apply_maximized_geom]
    rw [hens]
    simp [rect_minus_margin, hegeom,
      (show VIEW_AXIS_HORIZONTAL ≠ VIEW_AXIS_BOTH from by decide),
      (show ¬(VIEW_AXIS_HORIZONTAL = VIEW_AXIS_VERTICAL) from by decide)]
  rw [hstep, happ]
  have hmr2 := move_resize_state env
    { v with state := { v.state with natural_geom := v.state.pending,
                                     maximized := VIEW_AXIS_HORIZONTAL } }
    { x := (env.usableArea v.state.output).x + v.margin.left
      y := v.state.pending.y
      width := (env.usableArea v.state.output).width - v.margin.left - v.margin.right
      height := v.state.pending.height }
  refine ⟨move_resize_pending env _ _, ?_, ?_, ?_, ?_, ?_, ?_⟩
  · exact hmr2.2.2.2.2.2.1
  · exact hmr2.2.1
  · rw [hmr2.1]
    exact h1
  · rw [hmr2.2.2.1]
    exact h3
  · exact hmr2.2.2.2.2.2.2.2.2 (by
      simp [ViewState.floating, VIEW_AXIS_HORIZONTAL, VIEW_AXIS_NONE])
  · exact hmr2.2.2.2.2.2.2.1

end Labwc

namespace Labwc

/-- Un-maximizing (axis none) a horizontally maximized view whose
natural geometry lies within the usable area restores pending to
exactly the natural geometry, for either value of `is_moving` (when
storing, the free-axis capture copies back the unchanged y/height). -/
theorem maximize_none_restore (env : Env) (v : View) (b : Bool)
    (h1 : v.state.fullscreen = false) (h2 : v.state.maximized = VIEW_AXIS_HORIZONTAL)
    (h3 : v.state.tiled = LAB_EDGE_NONE)
    (hpy : v.state.pending.y = v.state.natural_geom.y)
    (hph : v.state.pending.height = v.state.natural_geom.height)
    (hgw : 0 < v.state.natural_geom.width) (hgh : 0 < v.state.natural_geom.height)
    (hml : 0 ≤ v.margin.left) (hmt : 0 ≤ v.margin.top)
    (hmr : 0 ≤ v.margin.right) (hmb : 0 ≤ v.margin.bottom)
    (hx : (env.usableArea v.state.output).x + v.margin.left ≤ v.state.natural_geom.x)
    (hy : (env.usableArea v.state.output).y + v.margin.top ≤ v.state.natural_geom.y)
    (hxw : v.state.natural_geom.x + v.state.natural_geom.width
      ≤ (env.usableArea v.state.output).x + (env.usableArea v.state.output).width
        - v.margin.right)
    (hyh : v.state.natural_geom.y + v.state.natural_geom.height
      ≤ (env.usableArea v.state.output).y + (env.usableArea v.state.output).height
        - v.margin.bottom) :
    (View.maximize env v VIEW_AXIS_NONE b).state.pending = v.state.natural_geom := by
  have hstore_id : v.store_natural_geom = v := by
    rw [store_natural_horizontal v h1 h3 h2]
    rw [hpy, hph]
  have hv1 : (if !b then v.store_natural_geom else v) = v := by
    cases b <;> simp [hstore_id]
  have hens2 : View.ensure_geom_onscreen env
      { v with state := { v.state with maximized := VIEW_AXIS_NONE } }
      v.state.natural_geom = v.state.natural_geom :=
    ensure_id env _ _ hgw hgh hml hmt hmr hmb hx hy hxw hyh
  have hstep : View.maximize env v VIEW_AXIS_NONE b
      = View.apply_natural_geom env
          { v with state := { v.state with maximized := VIEW_AXIS_NONE } } := by
    simp only [View.maximize]
    rw [if_neg (show ¬(v.state.maximized = VIEW_AXIS_NONE) from by
      simp [h2, VIEW_AXIS_NONE, VIEW_AXIS_HORIZONTAL])]
    rw [hv1]
    simp [View.set_maximized, ViewState.floating, h1, h2, h3,
      VIEW_AXIS_NONE, VIEW_AXIS_HORIZONTAL, VIEW_AXIS_VERTICAL]
  rw [hstep]
  simp only [View.apply_natural_geom]
  rw [hens2]
  exact move_resize_pending env _ _

end Labwc

namespace Labwc

/-- C3: on a floating view whose pending geometry lies within the
output's usable area minus (nonnegative) margins, and that is not the
view being dragged, `maximize(id, horizontal)` sets pending.x and
pending.width to the usable area minus horizontal margins while leaving
pending.y and pending.height unchanged, and a subsequent
`maximize(id, none)` restores pending to exactly the original
geometry. -/
theorem C3_thm (env : Env) (v : Views) (id : ViewId) (view : View)
    (hfind : v.find id = some view)
    (hmov : v.moving_id ≠ id)
    (h1 : view.state.fullscreen = false) (h2 : view.state.maximized = VIEW_AXIS_NONE)
    (h3 : view.state.tiled = LAB_EDGE_NONE)
    (hgw : 0 < view.state.pending.width) (hgh : 0 < view.state.pending.height)
    (hml : 0 ≤ view.margin.left) (hmt : 0 ≤ view.margin.top)
    (hmr : 0 ≤ view.margin.right) (hmb : 0 ≤ view.margin.bottom)
    (hx : (env.usableArea view.state.output).x + view.margin.left ≤ view.state.pending.x)
    (hy : (env.usableArea view.state.output).y + view.margin.top ≤ view.state.pending.y)
    (hxw : view.state.pending.x + view.state.pending.width
      ≤ (env.usableArea view.state.output).x + (env.usableArea view.state.output).width
        - view.margin.right)
    (hyh : view.state.pending.y + view.state.pending.height
      ≤ (env.usableArea view.state.output).y + (env.usableArea view.state.output).height
        - view.margin.bottom) :
    (∃ w1, (Views.maximize env v id VIEW_AXIS_HORIZONTAL).find id = some w1
      ∧ w1.state.pending.x = (env.usableArea view.state.output).x + view.margin.left
      ∧ w1.state.pending.width = (env.usableArea view.state.output).width
          - view.margin.left - view.margin.right
      ∧ w1.state.pending.y = view.state.pending.y
      ∧ w1.state.pending.height = view.state.pending.height)
    ∧ (∃ w2, (Views.maximize env (Views.maximize env v id VIEW_AXIS_HORIZONTAL) id
          VIEW_AXIS_NONE).find id = some w2
        ∧ w2.state.pending = view.state.pending) := by
  have hb : decide (id = v.moving_id) = false :=
    decide_eq_false (fun hh => hmov hh.symm)
  obtain ⟨hp1, hn1, hm1, hf1, ht1, ho1, hmg1⟩ :=
    maximize_h_floating env view h1 h2 h3 hgw hgh hml hmt hmr hmb hx hy hxw hyh
  have hop1 : Views.maximize env v id VIEW_AXIS_HORIZONTAL
      = (v.replace id (View.maximize env view VIEW_AXIS_HORIZONTAL false)).reset_grab_for
          (some id) := by
    simp only [Views.maximize, hfind]
    rw [if_pos (show view.state.maximized ≠ VIEW_AXIS_HORIZONTAL from by
      simp [h2, VIEW_AXIS_NONE, VIEW_AXIS_HORIZONTAL])]
    rw [hb]
  have hfind1 : (Views.maximize env v id VIEW_AXIS_HORIZONTAL).find id
      = some (View.maximize env view VIEW_AXIS_HORIZONTAL false) := by
    rw [hop1, find_reset_grab]
    exact find_replace_self v id _ view hfind
  have hpy' : (View.maximize env view VIEW_AXIS_HORIZONTAL false).state.pending.y
      = (View.maximize env view VIEW_AXIS_HORIZONTAL false).state.natural_geom.y := by
    rw [hp1, hn1]
  have hph' : (View.maximize env view VIEW_AXIS_HORIZONTAL false).state.pending.height
      = (View.maximize env view VIEW_AXIS_HORIZONTAL false).state.natural_geom.height := by
    rw [hp1, hn1]
  have hop2 : ∀ v1 : Views,
      v1.find id = some (View.maximize env view VIEW_AXIS_HORIZONTAL false) →
      (Views.maximize env v1 id VIEW_AXIS_NONE).find id
        = some (View.maximize env (View.maximize env view VIEW_AXIS_HORIZONTAL false)
            VIEW_AXIS_NONE (decide (id = v1.moving_id))) := by
    intro v1 hf1'
    simp only [Views.maximize, hf1']
    rw [if_pos (show (View.maximize env view VIEW_AXIS_HORIZONTAL false).state.maximized
        ≠ VIEW_AXIS_NONE from by
      rw [hm1]
      simp [VIEW_AXIS_HORIZONTAL, VIEW_AXIS_NONE])]
    rw [find_reset_grab]
    exact find_replace_self v1 id _ _ hf1'
  have hrestore := maximize_none_restore env
    (View.maximize env view VIEW_AXIS_HORIZONTAL false)
    (decide (id = (Views.maximize env v id VIEW_AXIS_HORIZONTAL).moving_id))
    hf1 hm1 ht1 hpy' hph'
    (by rw [hn1]; exact hgw) (by rw [hn1]; exact hgh)
    (by rw [hmg1]; exact hml) (by rw [hmg1]; exact hmt)
    (by rw [hmg1]; exact hmr) (by rw [hmg1]; exact hmb)
    (by rw [ho1, hmg1, hn1]; exact hx) (by rw [ho1, hmg1, hn1]; exact hy)
    (by rw [ho1, hmg1, hn1]; exact hxw) (by rw [ho1, hmg1, hn1]; exact hyh)
  constructor
  · refine ⟨View.maximize env view VIEW_AXIS_HORIZONTAL false, hfind1, ?_, ?_, ?_, ?_⟩
    · rw [hp1]
    · rw [hp1]
    · rw [hp1]
    · rw [hp1]
  · refine ⟨View.maximize env (View.maximize env view VIEW_AXIS_HORIZONTAL false)
        VIEW_AXIS_NONE (decide (id = (Views.maximize env v id VIEW_AXIS_HORIZONTAL).moving_id)),
      hop2 (Views.maximize env v id VIEW_AXIS_HORIZONTAL) hfind1, ?_⟩
    rw [hrestore, hn1]

/-- C3 witness: the round trip at a concrete registry: a floating view
at (100, 100, 400, 300) on a 1920×1080 output with zero margins. -/
theorem C3_witness :
    ∃ w2, (Views.maximize env1 (Views.maximize env1 vC3 1 VIEW_AXIS_HORIZONTAL) 1
      VIEW_AXIS_NONE).find 1 = some w2 ∧ w2.state.pending = ⟨100, 100, 400, 300⟩ := by
  have h := (C3_thm env1 vC3 1 (mkView stFloating 1 ⟨0, 0, 0, 0⟩) (by decide) (by decide)
    (by decide) (by decide) (by decide) (by decide) (by decide) (by decide) (by decide)
    (by decide) (by decide) (by decide) (by decide) (by decide) (by decide)).2
  exact h

end Labwc

namespace Labwc

/-! Preservation of (minimized, pending) through the focus machinery,
used to trace `snap_to_edge`'s BOTTOM branch through `minimize`. -/

theorem view_set_active_pm (u : View) (b : Bool) :
    ((u.set_active b).state.minimized, (u.set_active b).state.pending,
        (u.set_active b).state.output)
      = (u.state.minimized, u.state.pending, u.state.output) := by
  unfold View.set_active
  split_ifs <;> rfl

theorem find_congr_by_id (v v' : Views) (h : v'.by_id = v.by_id) (j : ViewId) :
    v'.find j = v.find j := by
  unfold Views.find
  rw [h]

theorem find_replace_none (v : Views) (idt : ViewId) (w : View)
    (h : v.find idt = none) : (v.replace idt w).find idt = none := by
  unfold Views.find at h
  unfold Views.replace Views.find
  rw [find?_map_keyfix _ _ (by intro p; by_cases hp : p.1 = idt <;> simp [hp]) idt]
  cases hf : v.by_id.find? (fun p => p.1 = idt) with
  | none => rfl
  | some q =>
    rw [hf] at h
    simp at h

theorem find_replace_pm (v : Views) (idt : ViewId) (w : View) (j : ViewId)
    (hw : ∀ u, v.find idt = some u →
      (w.state.minimized, w.state.pending, w.state.output)
        = (u.state.minimized, u.state.pending, u.state.output)) :
    ((v.replace idt w).find j).map (fun x => (x.state.minimized, x.state.pending, x.state.output))
      = (v.find j).map (fun x => (x.state.minimized, x.state.pending, x.state.output)) := by
  by_cases hj : j = idt
  · subst hj
    cases hf : v.find j with
    | none => rw [find_replace_none v j w hf]
    | some u =>
      rw [find_replace_self v j w u hf]
      exact congrArg some (hw u hf)
  · rw [find_replace_other v idt j w hj]

theorem set_active_pm (v : Views) (a : ViewId) (j : ViewId) :
    ((v.set_active a).find j).map (fun x => (x.state.minimized, x.state.pending, x.state.output))
      = (v.find j).map (fun x => (x.state.minimized, x.state.pending, x.state.output)) := by
  have hstep : ∀ (u : Views) (t : ViewId) (b : Bool),
      (∀ i, (u.find i).map (fun x => (x.state.minimized, x.state.pending, x.state.output))
        = (v.find i).map (fun x => (x.state.minimized, x.state.pending, x.state.output))) →
      ∀ i, (((match u.find t with
          | some w => u.replace t (w.set_active b)
          | none => u) : Views).find i).map (fun x => (x.state.minimized, x.state.pending, x.state.output))
        = (v.find i).map (fun x => (x.state.minimized, x.state.pending, x.state.output)) := by
    intro u t b hu i
    cases hf : u.find t with
    | none => exact hu i
    | some w =>
      rw [find_replace_pm u t _ i (fun u2 hu2 => by
        rw [hf] at hu2
        cases hu2
        exact view_set_active_pm w b)]
      exact hu i
  simp only [Views.set_active]
  split_ifs with hc
  · rfl
  · exact hstep _ a true
      (hstep { v with active_id := a } v.active_id false (fun i => rfl)) j

theorem raise_by_id (v : Views) (i : ViewId) : (v.raise i).by_id = v.by_id := by
  simp only [Views.raise]
  split
  · rfl
  · split <;> rfl

theorem focus_pm (v : Views) (i : ViewId) (r : Bool) (j : ViewId) :
    ((v.focus i r).find j).map (fun x => (x.state.minimized, x.state.pending, x.state.output))
      = (v.find j).map (fun x => (x.state.minimized, x.state.pending, x.state.output)) := by
  simp only [Views.focus]
  cases r with
  | false =>
    simp only [Bool.false_eq_true, if_false]
    cases hf : v.find ((v.get_modal_dialog i).getD i) with
    | none => rfl
    | some view =>
      dsimp only
      split_ifs with hfoc
      · exact set_active_pm v _ j
      · rfl
  | true =>
    simp only [if_true]
    have hb : ∀ x, (v.raise ((v.get_modal_dialog i).getD i)).find x = v.find x :=
      fun x => find_congr_by_id v _ (raise_by_id v _) x
    cases hf : (v.raise ((v.get_modal_dialog i).getD i)).find
        ((v.get_modal_dialog i).getD i) with
    | none => rw [hb j]
    | some view =>
      dsimp only
      split_ifs with hfoc
      · rw [set_active_pm, hb j]
      · rw [hb j]

theorem focus_topmost_pm (env : Env) (v : Views) (j : ViewId) :
    ((Views.focus_topmost env v).find j).map (fun x => (x.state.minimized, x.state.pending, x.state.output))
      = (v.find j).map (fun x => (x.state.minimized, x.state.pending, x.state.output)) := by
  simp only [Views.focus_topmost]
  cases hf : v.order.reverse.find? (fun i =>
      match v.find i with
      | some w => w.state.focusable && !w.state.minimized
      | none => false) with
  | some i => exact focus_pm v i true j
  | none =>
    split_ifs with hg
    · exact set_active_pm v 0 j
    · rfl

theorem set_minimized_pm (u : View) (b : Bool) :
    (u.set_minimized b).1.state.minimized = b
    ∧ (u.set_minimized b).1.state.pending = u.state.pending
    ∧ (u.set_minimized b).1.state.output = u.state.output := by
  simp only [View.set_minimized]
  split_ifs with hc h2
  · exact ⟨hc, rfl, rfl⟩
  · exact ⟨rfl, rfl, rfl⟩
  · exact ⟨rfl, rfl, rfl⟩

end Labwc

namespace Labwc

/-- `minimize(id, true)` on a registry containing `id` leaves the view
present, minimized, with its pending geometry untouched. -/
theorem minimize_true_self (env : Env) (v : Views) (id : ViewId) (w : View)
    (h : v.find id = some w) :
    ∃ w2, (Views.minimize env v id true).1.find id = some w2
      ∧ w2.state.minimized = true ∧ w2.state.pending = w.state.pending
      ∧ w2.state.output = w.state.output := by
  have hclose : ∀ (F : Views),
      ((F.find id).map (fun x => (x.state.minimized, x.state.pending, x.state.output))
        = some (true, w.state.pending, w.state.output)) →
      (∃ w2, F.find id = some w2 ∧ w2.state.minimized = true
        ∧ w2.state.pending = w.state.pending ∧ w2.state.output = w.state.output) := by
    intro F hF
    obtain ⟨w2, hw2, hpm⟩ := Option.map_eq_some'.mp hF
    obtain ⟨ha, hbc⟩ := Prod.ext_iff.mp hpm
    obtain ⟨hb, hc⟩ := Prod.ext_iff.mp hbc
    exact ⟨w2, hw2, ha, hb, hc⟩
  cases hmin : w.state.minimized with
  | true =>
    have heq : Views.minimize env v id true = (v, false) := by
      simp only [Views.minimize, h]
      rw [if_neg (show ¬(w.state.minimized ≠ true) from by simp [hmin])]
      simp
    rw [heq]
    exact ⟨w, h, hmin, rfl, rfl⟩
  | false =>
    have hguard : w.state.minimized ≠ true := by simp [hmin]
    have hq : ∃ k, v.by_id.find? (fun p => p.1 = id) = some (k, w) ∧ k = id := by
      unfold Views.find at h
      cases hf : v.by_id.find? (fun p => p.1 = id) with
      | none =>
        rw [hf] at h
        simp at h
      | some q =>
        rw [hf] at h
        have hq2 : q.2 = w := by simpa using h
        have hq1 : q.1 = id := by simpa using List.find?_some hf
        exact ⟨q.1, by rw [← hq2], hq1⟩
    obtain ⟨k, hfq, hk⟩ := hq
    rw [hk] at hfq
    have hbase : ∀ (u : Views), u.by_id = (v.by_id.map (fun (p : ViewId × View) =>
        if p.2.rootId = w.rootId then
          let r := p.2.set_minimized true
          ((p.1, r.1), r.2, decide (p.1 = v.grabbed_id))
        else (p, false, false))).map Prod.fst →
        (u.find id).map (fun x => (x.state.minimized, x.state.pending, x.state.output))
          = some (true, w.state.pending, w.state.output) := by
      intro u hu
      unfold Views.find
      rw [hu, List.map_map]
      rw [show (Prod.fst ∘ (fun (p : ViewId × View) =>
          if p.2.rootId = w.rootId then
            let r := p.2.set_minimized true
            ((p.1, r.1), r.2, decide (p.1 = v.grabbed_id))
          else (p, false, false)))
          = (fun (p : ViewId × View) =>
              if p.2.rootId = w.rootId then (p.1, (p.2.set_minimized true).1) else p)
        from by
          funext p
          by_cases hc : p.2.rootId = w.rootId <;> simp [hc]]
      rw [find?_map_keyfix _ _ (by
        intro p
        by_cases hc : p.2.rootId = w.rootId <;> simp [hc]) id]
      rw [hfq]
      have hsm := set_minimized_pm w true
      simp [hsm.1, hsm.2.1, hsm.2.2]
    simp only [Views.minimize, h]
    rw [if_pos hguard]
    apply hclose
    split_ifs <;> dsimp only <;>
      first
        | (rw [focus_pm, find_reset_grab]; exact hbase _ rfl)
        | (rw [focus_pm]; exact hbase _ rfl)
        | (rw [focus_topmost_pm, find_reset_grab]; exact hbase _ rfl)
        | (rw [focus_topmost_pm]; exact hbase _ rfl)
        | (rw [find_reset_grab]; exact hbase _ rfl)
        | exact hbase _ rfl

end Labwc

namespace Labwc

/-- `move_resize` on a floating view: the output becomes the one nearest
the new geometry, unless the geometry already equals `pending`. -/
theorem move_resize_output_floating (env : Env) (u : View) (g : Rect)
    (hfl : u.state.floating = true) :
    (View.move_resize env u g).state.output =
      (if rect_equals u.state.pending g then u.state.output
       else nearest_output_to_geom env g) := by
  simp only [View.move_resize]
  by_cases hc : rect_equals u.state.pending g = true
  · rw [if_pos hc, if_pos hc]
  · rw [if_neg hc, if_neg hc]
    have hfl2 : ({ u with state := { u.state with pending := g } } : View).state.floating
        = true := by
      simpa [ViewState.floating] using hfl
    rw [if_pos hfl2]
    split_ifs <;> rfl

/-- The common `if empty then skip else move_resize` tail of the
`apply_*_geom` helpers preserves the maximized axis, the tiled edges and
(for a non-floating view) the output. -/
theorem mr_branch_pres (env : Env) (u : View) (g : Rect)
    (hnf : u.state.floating = false) :
    ((if rect_empty g = true then u else View.move_resize env u g).state.maximized
        = u.state.maximized)
    ∧ ((if rect_empty g = true then u else View.move_resize env u g).state.tiled
        = u.state.tiled)
    ∧ ((if rect_empty g = true then u else View.move_resize env u g).state.output
        = u.state.output) := by
  split_ifs
  · exact ⟨rfl, rfl, rfl⟩
  · exact ⟨(move_resize_state env u g).2.1, (move_resize_state env u g).2.2.1,
      (move_resize_state env u g).2.2.2.2.2.2.2.2 hnf⟩

/-- `apply_special_geom` on a non-floating view preserves the maximized
axis, the tiled edges and the output. -/
theorem apply_special_pres (env : Env) (u : View) (hnf : u.state.floating = false) :
    (View.apply_special_geom env u).state.maximized = u.state.maximized
    ∧ (View.apply_special_geom env u).state.tiled = u.state.tiled
    ∧ (View.apply_special_geom env u).state.output = u.state.output := by
  simp only [View.apply_special_geom]
  split_ifs
  · simp only [View.apply_fullscreen_geom]
    exact mr_branch_pres env u _ hnf
  · simp only [View.apply_maximized_geom]
    exact mr_branch_pres env u _ hnf
  · simp only [View.apply_tiled_geom]
    exact mr_branch_pres env u _ hnf
  · exact ⟨rfl, rfl, rfl⟩

/-- `View::maximize(BOTH, is_moving)` on a floating view ends with both
axes maximized, on the same output. -/
theorem maximize_both_flags (env : Env) (v : View)
    (h1 : v.state.fullscreen = false) (h2 : v.state.maximized = VIEW_AXIS_NONE)
    (h3 : v.state.tiled = LAB_EDGE_NONE) :
    (View.maximize env v VIEW_AXIS_BOTH true).state.maximized = VIEW_AXIS_BOTH
    ∧ (View.maximize env v VIEW_AXIS_BOTH true).state.output = v.state.output := by
  have hstep : View.maximize env v VIEW_AXIS_BOTH true
      = View.apply_special_geom env (v.set_maximized VIEW_AXIS_BOTH) := by
    simp only [View.maximize]
    rw [if_neg (show ¬(v.state.maximized = VIEW_AXIS_BOTH) from by
      simp [h2, VIEW_AXIS_NONE, VIEW_AXIS_BOTH])]
    simp [ViewState.floating, View.set_maximized, h1, h2, h3,
      VIEW_AXIS_NONE, VIEW_AXIS_HORIZONTAL, VIEW_AXIS_VERTICAL, VIEW_AXIS_BOTH]
  have hu1 : (v.set_maximized VIEW_AXIS_BOTH).state.maximized = VIEW_AXIS_BOTH := by
    simp [View.set_maximized, h2, VIEW_AXIS_NONE, VIEW_AXIS_BOTH]
  have hu2 : (v.set_maximized VIEW_AXIS_BOTH).state.output = v.state.output := by
    simp [View.set_maximized, h2, VIEW_AXIS_NONE, VIEW_AXIS_BOTH]
  have hnf : (v.set_maximized VIEW_AXIS_BOTH).state.floating = false := by
    simp [ViewState.floating, View.set_maximized, h2, VIEW_AXIS_NONE, VIEW_AXIS_BOTH]
  have hp := apply_special_pres env (v.set_maximized VIEW_AXIS_BOTH) hnf
  rw [hstep]
  exact ⟨hp.1.trans hu1, hp.2.2.trans hu2⟩

/-- `View::tile(edges, is_moving)` on a floating view ends tiled to those
edges, on the same output. -/
theorem tile_flags (env : Env) (v : View) (e : LabEdge)
    (h1 : v.state.fullscreen = false) (h2 : v.state.maximized = VIEW_AXIS_NONE)
    (h3 : v.state.tiled = LAB_EDGE_NONE) (he : e ≠ LAB_EDGE_NONE) :
    (View.tile env v e true).state.tiled = e
    ∧ (View.tile env v e true).state.output = v.state.output := by
  have hstep : View.tile env v e true
      = View.apply_special_geom env (v.set_tiled e) := by
    simp only [View.tile]
    rw [if_neg (show ¬(v.state.tiled = e) from by rw [h3]; exact Ne.symm he)]
    simp [ViewState.floating, View.set_tiled, h1, h2, h3, he, Ne.symm he]
  have hu1 : (v.set_tiled e).state.tiled = e := by
    simp [View.set_tiled, h3, Ne.symm he]
  have hu2 : (v.set_tiled e).state.output = v.state.output := by
    simp [View.set_tiled, h3, Ne.symm he]
  have hnf : (v.set_tiled e).state.floating = false := by
    simp [ViewState.floating, View.set_tiled, h3, Ne.symm he, he]
  have hp := apply_special_pres env (v.set_tiled e) hnf
  rw [hstep]
  exact ⟨hp.2.1.trans hu1, hp.2.2.trans hu2⟩

end Labwc

namespace Labwc

/-- C7 counterexample: with two outputs, dropping the moving floating
view at the bottom edge of output 1 yields the BOTTOM snap target on
output 1, yet the view ends on output 0 — the still-floating
`move_resize(natural_geom)` re-derives the output from the restored
geometry, overriding the snap output. -/
theorem C7_cex :
    (get_snap_target envC7 1500 995).2 = LAB_EDGE_BOTTOM
    ∧ (get_snap_target envC7 1500 995).1 = 1
    ∧ ((Views.snap_to_edge envC7 vC7 1500 995).find 1).map
        (fun x => x.state.output) = some 0 := by
  decide

/-- C7: `snap_to_edge(cx, cy)` does nothing when the moving view is
absent, not floating, or the snap edge set is empty. Otherwise it first
reassigns the view's output to the snap output and then: for exactly TOP
the view ends maximized on both axes on the snap output; for exactly
BOTTOM the view's pending geometry is restored to `natural_geom` and it
is minimized, but its final output is re-derived by `move_resize` as the
output nearest the restored geometry (the snap output only survives when
the restore is a no-op); for any other non-empty edge set the view ends
tiled to those edges on the snap output. -/
theorem C7_thm (env : Env) (v : Views) (cx cy : Int) :
    (v.find v.moving_id = none → Views.snap_to_edge env v cx cy = v)
    ∧ (∀ w, v.find v.moving_id = some w → w.state.floating = false →
        Views.snap_to_edge env v cx cy = v)
    ∧ (∀ w, v.find v.moving_id = some w → w.state.floating = true →
        ((get_snap_target env cx cy).2 = LAB_EDGE_NONE →
            Views.snap_to_edge env v cx cy = v)
        ∧ ((get_snap_target env cx cy).2 = LAB_EDGE_TOP → ∃ w2,
            (Views.snap_to_edge env v cx cy).find v.moving_id = some w2
            ∧ w2.state.maximized = VIEW_AXIS_BOTH
            ∧ w2.state.output = (get_snap_target env cx cy).1)
        ∧ ((get_snap_target env cx cy).2 = LAB_EDGE_BOTTOM → ∃ w2,
            (Views.snap_to_edge env v cx cy).find v.moving_id = some w2
            ∧ w2.state.minimized = true
            ∧ w2.state.pending = w.state.natural_geom
            ∧ w2.state.output = (if rect_equals w.state.pending w.state.natural_geom
                then (get_snap_target env cx cy).1
                else nearest_output_to_geom env w.state.natural_geom))
        ∧ ((get_snap_target env cx cy).2 ≠ LAB_EDGE_NONE →
            (get_snap_target env cx cy).2 ≠ LAB_EDGE_TOP →
            (get_snap_target env cx cy).2 ≠ LAB_EDGE_BOTTOM → ∃ w2,
            (Views.snap_to_edge env v cx cy).find v.moving_id = some w2
            ∧ w2.state.tiled = (get_snap_target env cx cy).2
            ∧ w2.state.output = (get_snap_target env cx cy).1)) := by
  refine ⟨?_, ?_, ?_⟩
  · intro h
    simp only [Views.snap_to_edge, h]
  · intro w hw hnf
    simp only [Views.snap_to_edge, hw]
    rw [if_neg (by simp [hnf])]
  · intro w hw hfl
    have hfl' := hfl
    simp only [ViewState.floating, Bool.and_eq_true, Bool.not_eq_true',
      decide_eq_true_eq] at hfl'
    obtain ⟨⟨h1, h2⟩, h3⟩ := hfl'
    refine ⟨?_, ?_, ?_, ?_⟩
    · intro he
      simp only [Views.snap_to_edge, hw]
      rw [if_pos hfl, if_neg (by simp [he])]
    · intro he
      simp only [Views.snap_to_edge, hw]
      rw [if_pos hfl,
        if_pos (show (get_snap_target env cx cy).2 ≠ LAB_EDGE_NONE from by
          rw [he]; decide),
        if_pos he]
      exact ⟨View.maximize env (w.set_output (get_snap_target env cx cy).1)
          VIEW_AXIS_BOTH true,
        find_replace_self v v.moving_id _ w hw,
        (maximize_both_flags env (w.set_output (get_snap_target env cx cy).1)
          h1 h2 h3).1,
        (maximize_both_flags env (w.set_output (get_snap_target env cx cy).1)
          h1 h2 h3).2⟩
    · intro he
      simp only [Views.snap_to_edge, hw]
      rw [if_pos hfl,
        if_pos (show (get_snap_target env cx cy).2 ≠ LAB_EDGE_NONE from by
          rw [he]; decide),
        if_neg (show ¬((get_snap_target env cx cy).2 = LAB_EDGE_TOP) from by
          rw [he]; decide),
        if_pos he]
      have hfind2 : (v.replace v.moving_id
          (View.move_resize env (w.set_output (get_snap_target env cx cy).1)
            (w.set_output (get_snap_target env cx cy).1).state.natural_geom)).find
            v.moving_id
          = some (View.move_resize env (w.set_output (get_snap_target env cx cy).1)
            (w.set_output (get_snap_target env cx cy).1).state.natural_geom) :=
        find_replace_self v v.moving_id _ w hw
      obtain ⟨w2, hw2, hm, hp, ho⟩ := minimize_true_self env _ v.moving_id _ hfind2
      refine ⟨w2, hw2, hm, ?_, ?_⟩
      · exact hp.trans (move_resize_pending env _ _)
      · exact ho.trans (move_resize_output_floating env
          (w.set_output (get_snap_target env cx cy).1) _ hfl)
    · intro he hnt hnb
      simp only [Views.snap_to_edge, hw]
      rw [if_pos hfl, if_pos he,
        if_neg (show ¬((get_snap_target env cx cy).2 = LAB_EDGE_TOP) from hnt),
        if_neg (show ¬((get_snap_target env cx cy).2 = LAB_EDGE_BOTTOM) from hnb)]
      exact ⟨View.tile env (w.set_output (get_snap_target env cx cy).1)
          (get_snap_target env cx cy).2 true,
        find_replace_self v v.moving_id _ w hw,
        (tile_flags env (w.set_output (get_snap_target env cx cy).1)
          (get_snap_target env cx cy).2 h1 h2 h3 he).1,
        (tile_flags env (w.set_output (get_snap_target env cx cy).1)
          (get_snap_target env cx cy).2 h1 h2 h3 he).2⟩

/-- C7 witness: dropping the moving floating view at the top edge of
output 1 maximizes it on both axes on the snap output. -/
theorem C7_witness :
    ∃ w2, (Views.snap_to_edge envC7 vC7 1500 5).find vC7.moving_id = some w2
      ∧ w2.state.maximized = VIEW_AXIS_BOTH
      ∧ w2.state.output = (get_snap_target envC7 1500 5).1 := by
  exact ((C7_thm envC7 vC7 1500 5).2.2 wC7 (by decide) (by decide)).2.1 (by decide)

end Labwc
